import Mathlib

/-! Gonic: rendering abstraction and composition engine.

A shallow embedding of the layout, component, event-dispatch and backend-selection code of the
`gonic` Go packages (`layout`, `components`, `internal`, `shared` and the root package), with the
properties of its specification stated and proved over the embedding.

Go strings are modelled by Lean strings, Go `int` by `Int`, slices by lists, and a method
that assigns to its receiver by a function returning the updated receiver.
-/

namespace Gonic

/-! ## Package `shared` -/

/-- The interface `shared.Component` has the single method `Render() string`.  An interface
value is modelled by what a call of its `Render` does: `some s` when the call returns the
string `s`, `none` when the call panics (as `Spacer.Render` does on a negative size). -/
structure Component where
  Render : Option String

/-- The Go type `Direction` is `int`. -/
abbrev Direction := Int

/-- The constant `Horizontal Direction = iota`. -/
def Horizontal : Direction := 0

/-- The constant `Vertical`, the second of the `iota` block. -/
def Vertical : Direction := 1

/-! ## Package `layout` -/

/-- The struct `layout.BaseLayout`. -/
structure BaseLayout where
  components : List Component
  padding : Int
  spacing : Int

/-- The method `BaseLayout.Add(components ...Component)`:
`l.components = append(l.components, components...)`. -/
def BaseLayout.Add (l : BaseLayout) (components : List Component) : BaseLayout :=
  { l with components := l.components ++ components }

/-- The method `BaseLayout.SetPadding`. -/
def BaseLayout.SetPadding (l : BaseLayout) (padding : Int) : BaseLayout :=
  { l with padding := padding }

/-- The method `BaseLayout.SetSpacing`. -/
def BaseLayout.SetSpacing (l : BaseLayout) (spacing : Int) : BaseLayout :=
  { l with spacing := spacing }

/-- The struct `layout.StackLayout`, which embeds `BaseLayout`. -/
structure StackLayout extends BaseLayout

/-- The constructor `NewStackLayout`. -/
def NewStackLayout : StackLayout :=
  { components := [], padding := 0, spacing := 0 }

/-- The counting loop `for i := 0; i < n; i++ { builder.WriteString(s) }` run on a builder
holding `b`, given the number of times its body runs (`n.toNat` for the Go bound `n`, so
none for `n ≤ 0`). -/
def writeRepeat (s : String) : Nat → String → String
  | 0, b => b
  | k + 1, b => writeRepeat s k (b ++ s)

/-- The loop `for i, component := range l.components` of the two `Render` methods, from
index `i` on, where `sep` is the string written for one unit of spacing, `len` is
`len(l.components)` and `b` is the builder.  The comparison `i < len(l.components)-1` is on
Go `int`.  A panicking child panics the loop. -/
def renderComponents (sep : String) (spacing : Int) (len : Nat) :
    List Component → Nat → String → Option String
  | [], _, b => some b
  | component :: rest, i, b =>
    match component.Render with
    | none => none
    | some s =>
      let b1 := b ++ s
      let b2 := if (i : Int) < (len : Int) - 1 then writeRepeat sep spacing.toNat b1 else b1
      renderComponents sep spacing len rest (i + 1) b2

/-- The method `StackLayout.Render`. -/
def StackLayout.Render (l : StackLayout) : Option String :=
  let b0 := writeRepeat "\n" l.padding.toNat ""
  match renderComponents "\n" l.spacing l.components.length l.components 0 b0 with
  | none => none
  | some b1 => some (writeRepeat "\n" l.padding.toNat b1)

/-- The struct `layout.FlexLayout`, which embeds `BaseLayout` and adds `direction`. -/
structure FlexLayout extends BaseLayout where
  direction : Direction

/-- The constructor `NewFlexLayout`: the default direction is `Vertical`. -/
def NewFlexLayout : FlexLayout :=
  { components := [], padding := 0, spacing := 0, direction := Vertical }

/-- The method `FlexLayout.SetDirection`. -/
def FlexLayout.SetDirection (l : FlexLayout) (direction : Direction) : FlexLayout :=
  { l with direction := direction }

/-- The string written by the statement
`if l.direction == Vertical { builder.WriteString("\n") } else { builder.WriteString(" ") }`,
which is the body of each of the three counting loops of `FlexLayout.Render`. -/
def FlexLayout.separator (l : FlexLayout) : String :=
  if l.direction = Vertical then "\n" else " "

/-- The method `FlexLayout.Render`. -/
def FlexLayout.Render (l : FlexLayout) : Option String :=
  let b0 := writeRepeat l.separator l.padding.toNat ""
  match renderComponents l.separator l.spacing l.components.length l.components 0 b0 with
  | none => none
  | some b1 => some (writeRepeat l.separator l.padding.toNat b1)

/-- The method `Add` promoted from the embedded `BaseLayout` to `StackLayout`. -/
def StackLayout.Add (l : StackLayout) (components : List Component) : StackLayout :=
  { l with toBaseLayout := l.toBaseLayout.Add components }

/-- The method `Add` promoted from the embedded `BaseLayout` to `FlexLayout`. -/
def FlexLayout.Add (l : FlexLayout) (components : List Component) : FlexLayout :=
  { l with toBaseLayout := l.toBaseLayout.Add components }

/-- The method `SetPadding` promoted from the embedded `BaseLayout` to `StackLayout`. -/
def StackLayout.SetPadding (l : StackLayout) (padding : Int) : StackLayout :=
  { l with toBaseLayout := l.toBaseLayout.SetPadding padding }

/-- The method `SetSpacing` promoted from the embedded `BaseLayout` to `StackLayout`. -/
def StackLayout.SetSpacing (l : StackLayout) (spacing : Int) : StackLayout :=
  { l with toBaseLayout := l.toBaseLayout.SetSpacing spacing }

/-- The method `SetPadding` promoted from the embedded `BaseLayout` to `FlexLayout`. -/
def FlexLayout.SetPadding (l : FlexLayout) (padding : Int) : FlexLayout :=
  { l with toBaseLayout := l.toBaseLayout.SetPadding padding }

/-- The method `SetSpacing` promoted from the embedded `BaseLayout` to `FlexLayout`. -/
def FlexLayout.SetSpacing (l : FlexLayout) (spacing : Int) : FlexLayout :=
  { l with toBaseLayout := l.toBaseLayout.SetSpacing spacing }

/-- One call of a mutating method of the interface `shared.Layout`. -/
inductive LayoutCall where
  | add (components : List Component)
  | setPadding (padding : Int)
  | setSpacing (spacing : Int)

/-- A call of a `shared.Layout` method on a `StackLayout`. -/
def StackLayout.call (l : StackLayout) : LayoutCall → StackLayout
  | LayoutCall.add components => l.Add components
  | LayoutCall.setPadding padding => l.SetPadding padding
  | LayoutCall.setSpacing spacing => l.SetSpacing spacing

/-- A call of a `shared.Layout` method on a `FlexLayout`. -/
def FlexLayout.call (l : FlexLayout) : LayoutCall → FlexLayout
  | LayoutCall.add components => l.Add components
  | LayoutCall.setPadding padding => l.SetPadding padding
  | LayoutCall.setSpacing spacing => l.SetSpacing spacing

/-! ## Package `components` -/

/-- The struct `components.Button`.  The click handler `onClick` is a Go function value
`func()`, possibly `nil`, whose call is modelled by its action on the state `σ` it closes
over (`none` is the `nil` function). -/
structure Button (σ : Type) where
  text : String
  onClick : Option (σ → σ)
  disabled : Bool
  width : Int
  height : Int
  fontSize : Int
  color : String
  bgColor : String

/-- The constructor `NewButton`. -/
def NewButton {σ : Type} (text : String) (onClick : Option (σ → σ)) : Button σ :=
  { text := text, onClick := onClick, disabled := false, width := 100, height := 30,
    fontSize := 14, color := "white", bgColor := "blue" }

/-- The method `Button.SetDisabled`. -/
def Button.SetDisabled {σ : Type} (b : Button σ) (disabled : Bool) : Button σ :=
  { b with disabled := disabled }

/-- The method `Button.Click`: `if !b.disabled && b.onClick != nil { b.onClick() }`, as a
transformer of the state the handler closes over.  The button itself is not assigned to. -/
def Button.Click {σ : Type} (b : Button σ) (world : σ) : σ :=
  if !b.disabled && b.onClick.isSome then
    match b.onClick with
    | some onClick => onClick world
    | none => world
  else
    world

/-- A counting stub around a callback: it runs the callback and adds one to a counter of
invocations kept next to the callback's own state. -/
def countingStub {σ : Type} (callback : σ → σ) : σ × Nat → σ × Nat :=
  fun p => (callback p.1, p.2 + 1)

/-- The verb `%d` of `fmt.Sprintf` on a Go `int`: the decimal digits, after a minus sign for
a negative number. -/
def formatInt : Int → String
  | Int.ofNat m => Nat.repr m
  | Int.negSucc m => "-" ++ Nat.repr (m + 1)

/-- The value of a decimal digit character. -/
def digitValue (c : Char) : Nat := c.toNat - 48

/-- The number that a string of decimal digits denotes. -/
def decodeDigits (cs : List Char) : Nat :=
  cs.foldl (fun acc c => 10 * acc + digitValue c) 0

/-- The method `Button.Render`:
`fmt.Sprintf("[Button: %s%s (size: %dx%d, colors: %s on %s)]", b.text, disabledStr, b.width,
b.height, b.color, b.bgColor)`, where `disabledStr` is `" (disabled)"` for a disabled button
and empty otherwise. -/
def Button.Render {σ : Type} (b : Button σ) : String :=
  let disabledStr := if b.disabled then " (disabled)" else ""
  "[Button: " ++ b.text ++ disabledStr ++ " (size: " ++ formatInt b.width ++ "x"
    ++ formatInt b.height ++ ", colors: " ++ b.color ++ " on " ++ b.bgColor ++ ")]"

/-- The struct `components.Label`. -/
structure Label where
  text : String
  fontSize : Int
  bold : Bool
  italic : Bool
  color : String

/-- The constructor `NewLabel`. -/
def NewLabel (text : String) : Label :=
  { text := text, fontSize := 14, bold := false, italic := false, color := "black" }

/-- The method `Label.SetText`. -/
def Label.SetText (l : Label) (text : String) : Label :=
  { l with text := text }

/-- The method `Label.SetFontSize`. -/
def Label.SetFontSize (l : Label) (size : Int) : Label :=
  { l with fontSize := size }

/-- The method `Label.SetBold`. -/
def Label.SetBold (l : Label) (bold : Bool) : Label :=
  { l with bold := bold }

/-- The method `Label.SetItalic`. -/
def Label.SetItalic (l : Label) (italic : Bool) : Label :=
  { l with italic := italic }

/-- The method `Label.SetColor`. -/
def Label.SetColor (l : Label) (color : String) : Label :=
  { l with color := color }

/-- The variable `styleInfo` of `Label.Render` after its two `if` statements. -/
def Label.styleInfo (l : Label) : String :=
  let s0 := ""
  let s1 := if l.bold then s0 ++ " bold" else s0
  if l.italic then s1 ++ " italic" else s1

/-- The method `Label.Render`:
`fmt.Sprintf("[Label: %s (size: %d, color: %s%s)]", l.text, l.fontSize, l.color, styleInfo)`. -/
def Label.Render (l : Label) : String :=
  "[Label: " ++ l.text ++ " (size: " ++ formatInt l.fontSize ++ ", color: " ++ l.color
    ++ l.styleInfo ++ ")]"

/-- The struct `components.Spacer`. -/
structure Spacer where
  size : Int

/-- The constructor `NewSpacer`. -/
def NewSpacer (size : Int) : Spacer :=
  { size := size }

/-- The method `Spacer.SetSize`. -/
def Spacer.SetSize (s : Spacer) (size : Int) : Spacer :=
  { s with size := size }

/-- The library function `strings.Repeat(s, count)`: `count` copies of `s`; it panics
(`none`) on a negative `count`. -/
def stringsRepeat (s : String) (count : Int) : Option String :=
  if count < 0 then none else some (writeRepeat s count.toNat "")

/-- The method `Spacer.Render`: `strings.Repeat("\n", s.size)`. -/
def Spacer.Render (s : Spacer) : Option String :=
  stringsRepeat "\n" s.size

/-! ## Package `internal`: events -/

/-- The struct `internal.Event`; `EventType`, `MouseButton`, `KeyCode` and `KeyModifiers`
are Go `int`, `WindowID` is `uint32` and `KeyChar` is `rune`. -/
structure Event where
  /-- The field `Type`. -/
  type : Int
  WindowID : Nat
  MouseX : Int
  MouseY : Int
  MouseButton : Int
  KeyCode : Int
  Modifiers : Int
  Repeat : Bool
  KeyChar : Int

/-- The type `internal.EventHandler`, `func(event Event) bool`, a Go closure.  A call
returns a boolean and may change the state `σ` the closure closes over (`run`); it may also
call `AddHandler` on the manager that dispatches to it, and `registers` lists the handlers
it so registers, in order. -/
inductive EventHandler (σ : Type) where
  | mk (run : Event → σ → Bool × σ) (registers : Event → σ → List (EventHandler σ))

/-- The boolean returned by a call of the handler and the state it leaves. -/
def EventHandler.run {σ : Type} : EventHandler σ → Event → σ → Bool × σ
  | EventHandler.mk run _ => run

/-- The handlers that a call of the handler registers with `AddHandler`. -/
def EventHandler.registers {σ : Type} :
    EventHandler σ → Event → σ → List (EventHandler σ)
  | EventHandler.mk _ registers => registers

/-- A handler whose answer is the function `answer` of the event and whose effect on the
state is `effect`; it registers no handler. -/
def EventHandler.ofFn {σ : Type} (answer : Event → Bool) (effect : Event → σ → σ) :
    EventHandler σ :=
  EventHandler.mk (fun event w => (answer event, effect event w)) (fun _ _ => [])

/-- The struct `internal.EventManager`. -/
structure EventManager (σ : Type) where
  handlers : List (EventHandler σ)

/-- The constructor `NewEventManager`. -/
def NewEventManager {σ : Type} : EventManager σ :=
  { handlers := [] }

/-- The method `EventManager.AddHandler`: `em.handlers = append(em.handlers, handler)`. -/
def EventManager.AddHandler {σ : Type} (em : EventManager σ) (handler : EventHandler σ) :
    EventManager σ :=
  { em with handlers := em.handlers ++ [handler] }

/-- The loop `for _, handler := range em.handlers` of `DispatchEvent` over the handlers that
remain: `return true` at the first handler that answers true, `return false` after the
loop.  The range expression is evaluated once, so the loop runs over the handlers present
when it started; the calls of `AddHandler` that a handler makes go to the manager `em`. -/
def dispatchLoop {σ : Type} :
    List (EventHandler σ) → Event → EventManager σ → σ → Bool × EventManager σ × σ
  | [], _, em, w => (false, em, w)
  | handler :: rest, event, em, w =>
    let em1 := (handler.registers event w).foldl EventManager.AddHandler em
    match handler.run event w with
    | (true, w1) => (true, em1, w1)
    | (false, w1) => dispatchLoop rest event em1 w1

/-- What a call of `DispatchEvent` leaves behind: the returned boolean, the line given to
`log.Printf`, the manager and the state of the handlers. -/
structure DispatchResult (σ : Type) where
  handled : Bool
  logged : String
  em : EventManager σ
  world : σ

/-- The method `EventManager.DispatchEvent`. -/
def EventManager.DispatchEvent {σ : Type} (em : EventManager σ) (event : Event) (w : σ) :
    DispatchResult σ :=
  let logged := "Event: type=" ++ toString event.type
  let r := dispatchLoop em.handlers event em w
  { handled := r.1, logged := logged, em := r.2.1, world := r.2.2 }

/-- The handlers registered during a dispatch over `hs` from the state `w`, in order: those
of each invoked handler, up to and including the first handler that answers true. -/
def specRegistered {σ : Type} : List (EventHandler σ) → Event → σ → List (EventHandler σ)
  | [], _, _ => []
  | handler :: rest, event, w =>
    handler.registers event w ++
      (if (handler.run event w).1 then [] else specRegistered rest event (handler.run event w).2)

/-- The handlers that the specification's dispatch invokes on `event`, for handlers given by
their answer and their effect: those before the first one answering true, and that one. -/
def specInvoked {σ : Type} (hs : List ((Event → Bool) × (Event → σ → σ)))
    (event : Event) : List ((Event → Bool) × (Event → σ → σ)) :=
  hs.takeWhile (fun h => !h.1 event) ++ (hs.dropWhile (fun h => !h.1 event)).take 1

/-! ## Package `internal`: renderer backends -/

/-- The struct `internal.FyneRenderer`: `app` tells whether `r.app` holds an application of
the toolkit, `windows` lists the keys of the map `r.windows`. -/
structure FyneRenderer where
  app : Bool
  windows : List String

/-- The constructor `NewFyneRenderer`. -/
def NewFyneRenderer : FyneRenderer :=
  { app := false, windows := [] }

/-- The struct `internal.MockRenderer`. -/
structure MockRenderer where
  initialized : Bool

/-- The values of the interface `internal.RendererBackend` that the repository defines. -/
inductive RendererBackend where
  | fyne (r : FyneRenderer)
  | mock (r : MockRenderer)

/-! ## Package `gonic`: the application -/

/-- The Go type `shared.RenderMode` is `int`. -/
abbrev RenderMode := Int

/-- The constant `NativeMode RenderMode = iota`. -/
def NativeMode : RenderMode := 0

/-- The constant `WebMode`. -/
def WebMode : RenderMode := 1

/-- The constant `AutoMode`. -/
def AutoMode : RenderMode := 2

/-- The struct `shared.Config`. -/
structure SharedConfig where
  Title : String
  Width : Int
  Height : Int
  RenderMode : RenderMode
  Port : Int
  Debug : Bool

/-- The struct `gonic.Config`. -/
structure Config where
  Title : String
  Width : Int
  Height : Int
  RenderMode : RenderMode
  Port : Int

/-- The values of the interface `shared.Layout` that the repository defines. -/
inductive Layout where
  | stack (l : StackLayout)
  | flex (l : FlexLayout)

/-- The struct `gonic.Window`; `content` is `none` for the `nil` interface value. -/
structure Window where
  title : String
  width : Int
  height : Int
  content : Option Layout

/-- The struct `gonic.AlertDialog`. -/
structure AlertDialog where
  Title : String
  Message : String
  Buttons : List String
  Response : Int
  Done : Bool

/-- The struct `gonic.WebRenderer`; `counter` is `Counter.Value`, `alerts` the entries of
the map; the mutex carries no data. -/
structure WebRenderer where
  port : Int
  windows : List Window
  counter : Int
  alerts : List (String × AlertDialog)

/-- The constructor `NewWebRenderer`. -/
def NewWebRenderer (port : Int) : WebRenderer :=
  { port := port, windows := [], counter := 0, alerts := [] }

/-- The struct `gonic.App`; `webRenderer` is `none` for the `nil` pointer. -/
structure App where
  config : SharedConfig
  windows : List Window
  webRenderer : Option WebRenderer
  nativeActive : Bool

/-- The process state the application code reads and writes: the lines printed to standard
output, the package variables `internal.CurrentRenderer` and `currentApp`, the number of
calls made so far to `Initialize` on a native renderer, and the lines printed to standard
error. -/
structure World where
  stdout : List String
  CurrentRenderer : Option RendererBackend
  currentApp : Option App
  nativeInitCalls : Nat
  stderr : List String := []

/-- The method `FyneRenderer.Initialize`: `r.app = app.New()`, then `return nil`.  The
second component is the returned `error` (`none` for `nil`). -/
def FyneRenderer.Initialize (r : FyneRenderer) : FyneRenderer × Option String :=
  ({ r with app := true }, none)

/-- The function `tryNativeRenderer`, for a behaviour `nativeInit` of the call
`renderer.Initialize()` on the new native renderer (in the source it is
`FyneRenderer.Initialize`; the argument lets the outcome of the native toolkit vary).  The
call is counted in the world. -/
def tryNativeRenderer (nativeInit : FyneRenderer → FyneRenderer × Option String)
    (w : World) : Bool × World :=
  let r := nativeInit NewFyneRenderer
  let w1 := { w with nativeInitCalls := w.nativeInitCalls + 1 }
  match r.2 with
  | some err =>
    (false, { w1 with stdout := w1.stdout ++ ["Failed to initialize native renderer: " ++ err] })
  | none =>
    (true, { w1 with CurrentRenderer := some (RendererBackend.fyne r.1) })

/-- The function `NewAppWithConfig`, for a behaviour `nativeInit` of `Initialize` on the
native renderer (see `tryNativeRenderer`). -/
def NewAppWithConfig (nativeInit : FyneRenderer → FyneRenderer × Option String)
    (config : Config) (w : World) : App × World :=
  let sharedConfig : SharedConfig :=
    { Title := config.Title, Width := config.Width, Height := config.Height,
      RenderMode := config.RenderMode, Port := config.Port, Debug := false }
  let app : App :=
    { config := sharedConfig, windows := [], webRenderer := none, nativeActive := false }
  let mode : RenderMode := config.RenderMode
  let r : App × World :=
    if mode = WebMode then
      ({ app with webRenderer := some (NewWebRenderer config.Port) }, w)
    else if mode = NativeMode then
      let t := tryNativeRenderer nativeInit w
      let app1 := { app with nativeActive := t.1 }
      if !app1.nativeActive then
        ({ app1 with webRenderer := some (NewWebRenderer config.Port) },
          { t.2 with stdout := t.2.stdout ++
              ["Native renderer not available, falling back to web renderer"] })
      else
        (app1, t.2)
    else
      let t := tryNativeRenderer nativeInit w
      let app1 := { app with nativeActive := t.1 }
      if !app1.nativeActive then
        ({ app1 with webRenderer := some (NewWebRenderer config.Port) }, t.2)
      else
        (app1, t.2)
  (r.1, { r.2 with currentApp := some r.1 })

/-- The method `App.AddWindow`: `a.windows = append(a.windows, window)`. -/
def App.AddWindow (a : App) (window : Window) : App :=
  { a with windows := a.windows ++ [window] }

/-- How a call of `Run` goes on: `fatal` is `log.Fatal` with its message (the process
exits), `nilPointer` the panic of a field access through a `nil` pointer, `serving` the call
`http.ListenAndServe(addr, nil)` made by the web renderer `r`, where the process stays. -/
inductive RunOutcome where
  | fatal (message : String)
  | nilPointer
  | serving (r : WebRenderer) (addr : String)

/-- The method `WebRenderer.Run`: it stores the windows, registers its six handlers and
serves on `fmt.Sprintf(":%d", r.port)`. -/
def WebRenderer.Run (r : WebRenderer) (windows : List Window) : RunOutcome :=
  let r1 := { r with windows := windows }
  let addr := ":" ++ formatInt r1.port
  RunOutcome.serving r1 addr

/-- The function `runNativeApp`. -/
def runNativeApp (windows : List Window) (w : World) : RunOutcome × World :=
  let w1 := { w with stdout := w.stdout ++
    ["Native renderer not implemented, falling back to web renderer"] }
  ((NewWebRenderer 8080).Run windows, w1)

/-- The method `App.Run`. -/
def App.Run (a : App) (w : World) : RunOutcome × World :=
  if a.windows.length = 0 then
    (RunOutcome.fatal "Error: No windows to display. Create a window with NewWindow() first.",
      w)
  else if a.nativeActive then
    runNativeApp a.windows { w with stdout := w.stdout ++ ["Starting Gonic in native mode..."] }
  else
    let w1 := { w with stdout := w.stdout ++
      ["Starting Gonic in web mode. Open your browser at http://localhost:"
        ++ formatInt a.config.Port] }
    match a.webRenderer with
    | none => (RunOutcome.nilPointer, w1)
    | some r => (r.Run a.windows, w1)

/-- The assignment `m[key] = value` on a Go map kept as the list of its entries. -/
def mapAssign {α : Type} (m : List (String × α)) (key : String) (value : α) :
    List (String × α) :=
  m.filter (fun e => e.1 != key) ++ [(key, value)]

/-- The method `WebRenderer.ShowDialog`, where `now` is the value of
`time.Now().UnixNano()`: it files the dialog under `"alert-<now>"` and returns 0. -/
def WebRenderer.ShowDialog (r : WebRenderer) (now : Int) (title message : String)
    (buttons : List String) : Int × WebRenderer :=
  let alertID := "alert-" ++ formatInt now
  let dialog : AlertDialog :=
    { Title := title, Message := message, Buttons := buttons, Response := 0, Done := false }
  (0, { r with alerts := mapAssign r.alerts alertID dialog })

/-- The function `showNativeDialog`. -/
def showNativeDialog (_title _message : String) (_buttons : List String) (w : World) :
    Int × World :=
  (0, { w with stdout := w.stdout ++
    ["Native dialog not implemented, falling back to web renderer"] })

/-- The method `App.ShowDialog`; `none` is the panic of the call through a `nil`
`webRenderer`.  The web renderer behind the pointer `a.webRenderer` is updated in place, so
the app comes back with it. -/
def App.ShowDialog (a : App) (now : Int) (title message : String) (buttons : List String)
    (w : World) : Option (Int × App × World) :=
  if a.nativeActive then
    let r := showNativeDialog title message buttons w
    some (r.1, a, r.2)
  else
    match a.webRenderer with
    | none => none
    | some web =>
      let r := web.ShowDialog now title message buttons
      some (r.1, { a with webRenderer := some r.2 }, w)

/-- The package-level function `ShowDialog`; `currentApp` is a pointer, so what the
delegated call changes in the app is seen through `currentApp`. -/
def ShowDialog (now : Int) (title message : String) (buttons : List String) (w : World) :
    Option (Int × World) :=
  match w.currentApp with
  | none => some (0, { w with stderr := w.stderr ++ ["Error: No active application for dialog"] })
  | some a =>
    match a.ShowDialog now title message buttons w with
    | none => none
    | some r => some (r.1, { r.2.2 with currentApp := some r.2.1 })

/-- Modelled from the spec: the `initialize` of the native variant in the words of the
specification, which "fails with `BackendError::Unavailable` if the toolkit cannot start
(e.g., no display server)"; `toolkitStarts` tells whether the toolkit can start.  (The
method of the source is `FyneRenderer.Initialize`.) -/
def specNativeInitialize (toolkitStarts : Bool) (r : FyneRenderer) :
    FyneRenderer × Option String :=
  if toolkitStarts then ({ r with app := true }, none) else (r, some "backend unavailable")

/-! ## Package `internal`: the operations of the renderer backends -/

/-- The struct `internal.MockTarget`. -/
structure MockTarget where
  width : Int
  height : Int

/-- The struct `internal.FyneRenderTarget`: its field `window` is a pointer to a
`fyneWindow`, kept as the position of that window among the windows allocated so far. -/
structure FyneRenderTarget where
  window : Nat

/-- The non-nil values of the interface `internal.RenderTarget` that the repository
defines; the nil interface value is `none` of `Option RenderTarget`. -/
inductive RenderTarget where
  | mock (t : MockTarget)
  | fyne (t : FyneRenderTarget)

/-- The method `MockRenderer.Initialize`: the renderer after the call, the returned `error`
(`none` for `nil`) and the lines given to `log`. -/
def MockRenderer.Initialize (_r : MockRenderer) : MockRenderer × Option String × List String :=
  ({ initialized := true }, none, ["Mock renderer initialized"])

/-- The method `MockRenderer.Shutdown`: the renderer after the call and the lines given to
`log`. -/
def MockRenderer.Shutdown (_r : MockRenderer) : MockRenderer × List String :=
  ({ initialized := false }, ["Mock renderer shut down"])

/-- The method `MockRenderer.CreateWindow`: the renderer after the call, the returned
target and `error`, and the line given to `log.Printf`. -/
def MockRenderer.CreateWindow (r : MockRenderer) (title : String) (width height : Int) :
    MockRenderer × (Option RenderTarget × Option String) × List String :=
  (r, (some (RenderTarget.mock { width := width, height := height }), none),
    ["Mock window created: " ++ title ++ " (" ++ formatInt width ++ "x" ++ formatInt height
      ++ ")"])

/-- The method `MockRenderer.DrawRectangle`: the renderer and the target after the call and
the line given to `log.Printf`. -/
def MockRenderer.DrawRectangle (r : MockRenderer) (target : Option RenderTarget)
    (x y width height : Int) (color : String) :
    MockRenderer × Option RenderTarget × List String :=
  (r, target, ["Mock rectangle drawn: (" ++ formatInt x ++ "," ++ formatInt y ++ ") "
    ++ formatInt width ++ "x" ++ formatInt height ++ " color:" ++ color])

/-- The method `MockRenderer.DrawText`: the renderer and the target after the call and the
line given to `log.Printf`. -/
def MockRenderer.DrawText (r : MockRenderer) (target : Option RenderTarget) (text : String)
    (x y : Int) (font : String) (size : Int) (color : String) :
    MockRenderer × Option RenderTarget × List String :=
  (r, target, ["Mock text drawn: " ++ text ++ " at (" ++ formatInt x ++ "," ++ formatInt y
    ++ ") font:" ++ font ++ " size:" ++ formatInt size ++ " color:" ++ color])

/-- The method `MockTarget.Clear`: the target after the call and the line given to `log`. -/
def MockTarget.Clear (t : MockTarget) : MockTarget × List String :=
  (t, ["Mock target cleared"])

/-- The method `MockTarget.Present`: the target after the call and the line given to
`log`. -/
def MockTarget.Present (t : MockTarget) : MockTarget × List String :=
  (t, ["Mock target presented"])

/-- The method `MockTarget.Size`. -/
def MockTarget.Size (t : MockTarget) : Int × Int :=
  (t.width, t.height)

/-- An object added to the `content` container of a `fyneWindow`: the rectangle of
`DrawRectangle` (the color handed to the toolkit is `parseColor` of the string kept here;
position and size go to the toolkit as `float32`) or the label of `DrawText`. -/
inductive FynePrimitive where
  | rectangle (colorStr : String) (x y width height : Int)
  | label (text : String) (x y : Int)

/-- The struct `internal.fyneWindow`: the toolkit window, by the title and size it was
created with, and the objects in its `content` container. -/
structure FyneWindow where
  title : String
  width : Int
  height : Int
  content : List FynePrimitive

/-- The method `FyneRenderer.Shutdown`: its body is empty. -/
def FyneRenderer.Shutdown (r : FyneRenderer) : FyneRenderer :=
  r

/-- The method `FyneRenderer.CreateWindow`, over the list `heap` of the `fyneWindow` objects
allocated so far: the new window goes to the end of it, its title becomes a key of
`r.windows`, and the returned target points to it.  `none` is the panic of
`r.app.NewWindow` on a renderer whose `app` is nil. -/
def FyneRenderer.CreateWindow (r : FyneRenderer) (title : String) (width height : Int)
    (heap : List FyneWindow) :
    Option (FyneRenderer × (Option RenderTarget × Option String) × List FyneWindow) :=
  if r.app then
    let fyneWin : FyneWindow :=
      { title := title, width := width, height := height, content := [] }
    let r1 := { r with windows := if title ∈ r.windows then r.windows
                                  else r.windows ++ [title] }
    some (r1, (some (RenderTarget.fyne { window := heap.length }), none), heap ++ [fyneWin])
  else
    none

/-- The statement `fyneTarget.window.content.Add(obj)` on the heap of windows; `none` is
the panic of a pointer to no window. -/
def fyneContentAdd (heap : List FyneWindow) (t : FyneRenderTarget) (obj : FynePrimitive) :
    Option (List FyneWindow) :=
  match heap.get? t.window with
  | none => none
  | some win => some (heap.set t.window { win with content := win.content ++ [obj] })

/-- The method `FyneRenderer.DrawRectangle`, over the heap of windows and the lines printed
to standard output.  The type assertion `target.(*FyneRenderTarget)` fails on the nil
interface and on a target of another type. -/
def FyneRenderer.DrawRectangle (r : FyneRenderer) (target : Option RenderTarget)
    (x y width height : Int) (colorStr : String) (heap : List FyneWindow)
    (stdout : List String) : Option (FyneRenderer × List FyneWindow × List String) :=
  match target with
  | some (RenderTarget.fyne fyneTarget) =>
    match fyneContentAdd heap fyneTarget (FynePrimitive.rectangle colorStr x y width height) with
    | none => none
    | some heap1 => some (r, heap1, stdout)
  | _ => some (r, heap, stdout ++ ["Error: Invalid render target type"])

/-- The method `FyneRenderer.DrawText`, over the heap of windows and the lines printed to
standard output. -/
def FyneRenderer.DrawText (r : FyneRenderer) (target : Option RenderTarget) (text : String)
    (x y : Int) (_font : String) (_size : Int) (_colorStr : String) (heap : List FyneWindow)
    (stdout : List String) : Option (FyneRenderer × List FyneWindow × List String) :=
  match target with
  | some (RenderTarget.fyne fyneTarget) =>
    match fyneContentAdd heap fyneTarget (FynePrimitive.label text x y) with
    | none => none
    | some heap1 => some (r, heap1, stdout)
  | _ => some (r, heap, stdout ++ ["Error: Invalid render target type"])

/-! ## Components as children of layouts -/

/-- A `*Spacer` as a value of the interface `Component`. -/
def Spacer.toComponent (s : Spacer) : Component :=
  { Render := s.Render }

/-- A `*StackLayout` as a value of the interface `Component`. -/
def StackLayout.toComponent (l : StackLayout) : Component :=
  { Render := l.Render }

/-- The plain concatenation of the outputs of a list of children, in order; a panicking
child panics the whole. -/
def concatOutputs : List Component → Option String
  | [] => some ""
  | c :: rest =>
    match c.Render, concatOutputs rest with
    | some s, some t => some (s ++ t)
    | _, _ => none

/-- The Go builtin `len` on a string: its number of bytes. -/
def goLen (s : String) : Nat := s.utf8ByteSize

/-! ### The layout algorithm in the words of the specification -/

/-- The output the specification describes for a layout: `P` leading separators, the
children's outputs with `S` separators between each consecutive pair (none after the last),
then `P` trailing separators, for the separator character `sep`. -/
def specLayoutOutput (sep : Char) (P S : Nat) (outs : List String) : String :=
  String.replicate P sep ++ String.intercalate (String.replicate S sep) outs
    ++ String.replicate P sep

/-- The separator character of the specification's flex layout: newline when the direction is
`Vertical`, a single space otherwise. -/
def specFlexSeparator (d : Direction) : Char :=
  if d = Vertical then '\n' else ' '


/-! ## Lemmas on strings -/

theorem replicate_succ_eq (c : Char) (n : Nat) :
    String.replicate (n + 1) c = String.singleton c ++ String.replicate n c := by
  rfl

theorem replicate_add_eq (c : Char) (m n : Nat) :
    String.replicate m c ++ String.replicate n c = String.replicate (m + n) c := by
  apply String.ext
  show List.replicate m c ++ List.replicate n c = List.replicate (m + n) c
  simp

theorem writeRepeat_eq (c : Char) (n : Nat) (b : String) :
    writeRepeat (String.singleton c) n b = b ++ String.replicate n c := by
  induction n generalizing b with
  | zero => simp [writeRepeat, String.replicate]
  | succ k ih =>
    rw [writeRepeat, ih, replicate_succ_eq, String.append_assoc]

theorem intercalate_go_append (g x y : String) (l : List String) :
    String.intercalate.go (x ++ y) g l = x ++ String.intercalate.go y g l := by
  induction l generalizing y with
  | nil => simp [String.intercalate.go]
  | cons a t ih =>
    simp only [String.intercalate.go]
    rw [String.append_assoc, String.append_assoc, ih, String.append_assoc]

theorem intercalate_cons_cons (g a b : String) (t : List String) :
    String.intercalate g (a :: b :: t) = a ++ g ++ String.intercalate g (b :: t) := by
  simp only [String.intercalate, String.intercalate.go]
  rw [intercalate_go_append]

theorem intercalate_singleton (g a : String) : String.intercalate g [a] = a := by
  simp [String.intercalate, String.intercalate.go]

theorem utf8ByteSize_go_append (a b : List Char) :
    String.utf8ByteSize.go (a ++ b) = String.utf8ByteSize.go a + String.utf8ByteSize.go b := by
  induction a with
  | nil => simp [String.utf8ByteSize.go]
  | cons c t ih =>
    show String.utf8ByteSize.go (t ++ b) + c.utf8Size
      = String.utf8ByteSize.go t + c.utf8Size + String.utf8ByteSize.go b
    rw [ih]; omega

theorem goLen_append (s t : String) : goLen (s ++ t) = goLen s + goLen t := by
  cases s; cases t
  exact utf8ByteSize_go_append _ _

theorem goLen_replicate (c : Char) (h : c.utf8Size = 1) (n : Nat) :
    goLen (String.replicate n c) = n := by
  induction n with
  | zero => rfl
  | succ k ih =>
    rw [replicate_succ_eq, goLen_append, ih]
    simp [goLen, String.utf8ByteSize, String.singleton, String.utf8ByteSize.go, h]
    omega

/-- Measures of a string that add up over concatenation: both `goLen` (bytes, the Go `len`)
and `String.length` (characters) are such. -/
theorem measure_intercalate (m : String → Nat) (hm : ∀ s t, m (s ++ t) = m s + m t)
    (g o : String) (outs : List String) :
    m (String.intercalate g (o :: outs)) = (outs.length) * m g + ((o :: outs).map m).sum := by
  induction outs generalizing o with
  | nil => simp [intercalate_singleton]
  | cons a t ih =>
    rw [intercalate_cons_cons, hm, hm, ih]
    simp only [List.length_cons, List.map_cons, List.sum_cons]
    ring

/-! ## Lemmas on the rendering loop -/

theorem renderComponents_eq (c : Char) (spacing : Int) (len : Nat) (cs : List Component)
    (outs : List String) (i : Nat) (b : String)
    (hc : cs.map Component.Render = outs.map some) (hi : i + cs.length = len) :
    renderComponents (String.singleton c) spacing len cs i b
      = some (b ++ String.intercalate (String.replicate spacing.toNat c) outs) := by
  induction cs generalizing outs i b with
  | nil =>
    cases outs with
    | nil => simp [renderComponents, String.intercalate]
    | cons o os => simp at hc
  | cons x rest ih =>
    cases outs with
    | nil => simp at hc
    | cons o os =>
      simp only [List.map_cons, List.cons.injEq] at hc
      obtain ⟨hx, hrest⟩ := hc
      simp only [renderComponents, hx]
      cases rest with
      | nil =>
        cases os with
        | nil =>
          have : ¬ ((i : Int) < (len : Int) - 1) := by
            simp at hi; omega
          simp [this, renderComponents, intercalate_singleton]
        | cons o2 os2 => simp at hrest
      | cons y rest2 =>
        cases os with
        | nil => simp at hrest
        | cons o2 os2 =>
          have hlt : (i : Int) < (len : Int) - 1 := by
            simp at hi; omega
          simp only [hlt, if_true]
          rw [ih (o2 :: os2) (i + 1) _ hrest (by simp at hi ⊢; omega), writeRepeat_eq,
            intercalate_cons_cons]
          simp [String.append_assoc]

theorem render_core (c : Char) (padding spacing : Int) (cs : List Component)
    (outs : List String) (hc : cs.map Component.Render = outs.map some) :
    (match renderComponents (String.singleton c) spacing cs.length cs 0
        (writeRepeat (String.singleton c) padding.toNat "") with
      | none => none
      | some b1 => some (writeRepeat (String.singleton c) padding.toNat b1))
      = some (specLayoutOutput c padding.toNat spacing.toNat outs) := by
  rw [renderComponents_eq c spacing cs.length cs outs 0 _ hc (by simp)]
  simp [writeRepeat_eq, specLayoutOutput]

theorem flex_separator_eq (l : FlexLayout) :
    l.separator = String.singleton (specFlexSeparator l.direction) := by
  unfold FlexLayout.separator specFlexSeparator
  split <;> rfl

theorem stack_render_eq_spec (l : StackLayout) (outs : List String)
    (hc : l.components.map Component.Render = outs.map some) :
    l.Render = some (specLayoutOutput '\n' l.padding.toNat l.spacing.toNat outs) :=
  render_core '\n' l.padding l.spacing l.components outs hc

theorem flex_render_eq_spec (l : FlexLayout) (outs : List String)
    (hc : l.components.map Component.Render = outs.map some) :
    l.Render = some (specLayoutOutput (specFlexSeparator l.direction)
      l.padding.toNat l.spacing.toNat outs) := by
  unfold FlexLayout.Render
  rw [flex_separator_eq]
  exact render_core _ l.padding l.spacing l.components outs hc


/-! ## Lemmas on event dispatch -/

theorem ofFn_run {σ : Type} (answer : Event → Bool) (effect : Event → σ → σ)
    (event : Event) (w : σ) :
    (EventHandler.ofFn answer effect).run event w = (answer event, effect event w) :=
  rfl

theorem ofFn_registers {σ : Type} (answer : Event → Bool) (effect : Event → σ → σ)
    (event : Event) (w : σ) : (EventHandler.ofFn answer effect).registers event w = [] :=
  rfl

theorem dispatchLoop_ofFn {σ : Type} (hs : List ((Event → Bool) × (Event → σ → σ)))
    (event : Event) (em : EventManager σ) (w : σ) :
    dispatchLoop (hs.map (fun h => EventHandler.ofFn h.1 h.2)) event em w
      = (hs.any (fun h => h.1 event), em,
          (specInvoked hs event).foldl (fun acc h => h.2 event acc) w) := by
  induction hs generalizing w with
  | nil => simp [dispatchLoop, specInvoked]
  | cons h t ih =>
    cases hh : h.1 event with
    | true =>
      simp [dispatchLoop, ofFn_run, ofFn_registers, specInvoked, hh]
    | false =>
      have ih2 := ih (h.2 event w)
      simp only [specInvoked] at ih2
      simp [dispatchLoop, ofFn_run, ofFn_registers, specInvoked, hh, ih2]

theorem addHandlers_handlers {σ : Type} (added : List (EventHandler σ))
    (em : EventManager σ) :
    (added.foldl EventManager.AddHandler em).handlers = em.handlers ++ added := by
  induction added generalizing em with
  | nil => simp
  | cons a t ih => simp [ih, EventManager.AddHandler]

theorem dispatchLoop_handlers {σ : Type} (hs : List (EventHandler σ)) (event : Event)
    (em : EventManager σ) (w : σ) :
    (dispatchLoop hs event em w).2.1.handlers
      = em.handlers ++ specRegistered hs event w := by
  induction hs generalizing em w with
  | nil => simp [dispatchLoop, specRegistered]
  | cons h t ih =>
    simp only [dispatchLoop, specRegistered]
    cases hr : h.run event w with
    | mk ans w1 =>
      cases ans with
      | true => simp [addHandlers_handlers]
      | false => simp [ih, addHandlers_handlers, List.append_assoc]

theorem specRegistered_nil {σ : Type} (hs : List (EventHandler σ))
    (hnone : ∀ g ∈ hs, ∀ e s, g.registers e s = []) (event : Event) (w : σ) :
    specRegistered hs event w = [] := by
  induction hs generalizing w with
  | nil => rfl
  | cons h t ih =>
    simp only [specRegistered, hnone h (List.mem_cons_self _ _)]
    split
    · rfl
    · simpa using ih (fun g hg => hnone g (List.mem_cons_of_mem _ hg)) _

/-! ## Layouts -/

/-- C1: for every StackLayout with padding `P ≥ 0`, spacing `S ≥ 0` and children whose
`Render` calls return the strings `outs` (any number of them), `Render` returns exactly `P`
newlines, then the children's outputs in insertion order with exactly `S` newlines between
each consecutive pair and none after the last, then `P` newlines. -/
theorem stack_render_exact (l : StackLayout) (P S : Nat) (outs : List String)
    (hP : l.padding = (P : Int)) (hS : l.spacing = (S : Int))
    (hc : l.components.map Component.Render = outs.map some) :
    l.Render = some (String.replicate P '\n'
      ++ String.intercalate (String.replicate S '\n') outs ++ String.replicate P '\n') := by
  have h := stack_render_eq_spec l outs hc
  rw [hP, hS] at h
  simpa [specLayoutOutput] using h

/-- Witness of C1: padding 1, spacing 0 and one child rendering "X" give "\nX\n". -/
theorem stack_render_exact_witness :
    StackLayout.Render { components := [{ Render := some "X" }], padding := 1, spacing := 0 }
      = some "\nX\n" :=
  stack_render_exact { components := [{ Render := some "X" }], padding := 1, spacing := 0 }
    1 0 ["X"] rfl rfl rfl

/-- C2: for every FlexLayout with padding `P ≥ 0`, spacing `S ≥ 0` and children whose
`Render` calls return the strings `outs`, `Render` returns `P` separators, the children's
outputs in insertion order with exactly `S` separators between each consecutive pair and
none after the last, then `P` separators; the separator is a newline when the direction is
`Vertical` and a single space when it is `Horizontal`. -/
theorem flex_render_exact (l : FlexLayout) (P S : Nat) (outs : List String)
    (hP : l.padding = (P : Int)) (hS : l.spacing = (S : Int))
    (hc : l.components.map Component.Render = outs.map some) :
    (l.direction = Vertical → l.Render = some (String.replicate P '\n'
      ++ String.intercalate (String.replicate S '\n') outs ++ String.replicate P '\n')) ∧
    (l.direction = Horizontal → l.Render = some (String.replicate P ' '
      ++ String.intercalate (String.replicate S ' ') outs ++ String.replicate P ' ')) := by
  have h := flex_render_eq_spec l outs hc
  rw [hP, hS] at h
  constructor
  · intro hd
    rw [hd] at h
    simpa [specLayoutOutput, specFlexSeparator] using h
  · intro hd
    rw [hd] at h
    simpa [specLayoutOutput, specFlexSeparator, Horizontal, Vertical] using h

/-- Witness of C2: Horizontal, padding 0, spacing 1 and children rendering "A", "B", "C"
give exactly "A B C". -/
theorem flex_render_exact_witness :
    FlexLayout.Render { components := [{ Render := some "A" }, { Render := some "B" },
        { Render := some "C" }], padding := 0, spacing := 1, direction := Horizontal }
      = some "A B C" :=
  (flex_render_exact { components := [{ Render := some "A" }, { Render := some "B" },
      { Render := some "C" }], padding := 0, spacing := 1, direction := Horizontal }
    0 1 ["A", "B", "C"] rfl rfl rfl).2 rfl


theorem specLayoutOutput_measure (m : String → Nat) (hm : ∀ s t, m (s ++ t) = m s + m t)
    (c : Char) (hrep : ∀ n, m (String.replicate n c) = n) (P S : Nat) (outs : List String)
    (hN : 1 ≤ outs.length) :
    m (specLayoutOutput c P S outs)
      = 2 * P + (outs.length - 1) * S + (outs.map m).sum := by
  cases outs with
  | nil => simp at hN
  | cons o os =>
    unfold specLayoutOutput
    rw [hm, hm, measure_intercalate m hm, hrep, hrep]
    simp only [List.length_cons, Nat.add_sub_cancel]
    omega

theorem specFlexSeparator_utf8Size (d : Direction) : (specFlexSeparator d).utf8Size = 1 := by
  unfold specFlexSeparator
  split <;> rfl

theorem specLayoutOutput_lengths (c : Char) (hc : c.utf8Size = 1) (P S : Nat)
    (outs : List String) (hN : 1 ≤ outs.length) :
    goLen (specLayoutOutput c P S outs)
        = 2 * P + (outs.length - 1) * S + (outs.map goLen).sum ∧
      (specLayoutOutput c P S outs).length
        = 2 * P + (outs.length - 1) * S + (outs.map String.length).sum :=
  ⟨specLayoutOutput_measure goLen goLen_append c (goLen_replicate c hc) P S outs hN,
    specLayoutOutput_measure String.length String.length_append c
      (fun n => String.length_replicate n c) P S outs hN⟩

/-- C3: for every Stack or Flex layout (Flex in any direction) with `N ≥ 1` children,
padding `P ≥ 0`, spacing `S ≥ 0`, whatever strings `outs` the children render to, `Render`
returns a string whose length (in bytes, as Go's `len`, and in characters alike) is
`2*P + (N-1)*S +` the sum of the lengths of the children's outputs. -/
theorem render_length_formula (b : BaseLayout) (d : Direction) (P S : Nat)
    (outs : List String) (hP : b.padding = (P : Int)) (hS : b.spacing = (S : Int))
    (hc : b.components.map Component.Render = outs.map some)
    (hN : 1 ≤ b.components.length) :
    (∃ s, StackLayout.Render { toBaseLayout := b } = some s ∧
      goLen s = 2 * P + (b.components.length - 1) * S + (outs.map goLen).sum ∧
      s.length = 2 * P + (b.components.length - 1) * S + (outs.map String.length).sum) ∧
    (∃ s, FlexLayout.Render { toBaseLayout := b, direction := d } = some s ∧
      goLen s = 2 * P + (b.components.length - 1) * S + (outs.map goLen).sum ∧
      s.length = 2 * P + (b.components.length - 1) * S + (outs.map String.length).sum) := by
  have hlen : b.components.length = outs.length := by
    have := congrArg List.length hc
    simpa using this
  have hN2 : 1 ≤ outs.length := hlen ▸ hN
  have h1 := stack_render_eq_spec { toBaseLayout := b } outs hc
  have h2 := flex_render_eq_spec { toBaseLayout := b, direction := d } outs hc
  simp only [hP, hS, Int.toNat_ofNat] at h1 h2
  rw [hlen]
  exact ⟨⟨_, h1, specLayoutOutput_lengths '\n' rfl P S outs hN2⟩,
    ⟨_, h2, specLayoutOutput_lengths _ (specFlexSeparator_utf8Size d) P S outs hN2⟩⟩

/-- Witness of C3: two children rendering "A" and "BC" under padding 1 and spacing 2, in a
stack and in a horizontal flex layout. -/
theorem render_length_formula_witness :
    (∃ s, StackLayout.Render
        { components := [{ Render := some "A" }, { Render := some "BC" }],
          padding := 1, spacing := 2 } = some s ∧ goLen s = 7 ∧ s.length = 7) ∧
    (∃ s, FlexLayout.Render
        { components := [{ Render := some "A" }, { Render := some "BC" }],
          padding := 1, spacing := 2, direction := Horizontal } = some s ∧
      goLen s = 7 ∧ s.length = 7) :=
  render_length_formula
    { components := [{ Render := some "A" }, { Render := some "BC" }],
      padding := 1, spacing := 2 }
    Horizontal 1 2 ["A", "BC"] rfl rfl rfl (by decide)

/-- C4: a Stack or Flex layout with no children, padding `P ≥ 0` and any spacing renders
exactly `2*P` separators (`P` leading followed by `P` trailing) and nothing else, so the
output does not depend on the spacing; with `P = 2` and `S = 5` it is four separators. -/
theorem empty_layout_render (P : Nat) (S : Int) (d : Direction) :
    StackLayout.Render { components := [], padding := (P : Int), spacing := S }
      = some (String.replicate (P + P) '\n') ∧
    FlexLayout.Render { components := [], padding := (P : Int), spacing := S, direction := d }
      = some (String.replicate (P + P) (if d = Vertical then '\n' else ' ')) ∧
    StackLayout.Render { components := [], padding := 2, spacing := 5 } = some "\n\n\n\n" ∧
    FlexLayout.Render { components := [], padding := 2, spacing := 5, direction := Horizontal }
      = some "    " := by
  refine ⟨?_, ?_, by decide, by decide⟩
  · have h := stack_render_eq_spec
      { components := [], padding := (P : Int), spacing := S } [] rfl
    rw [h]
    simp [specLayoutOutput, String.intercalate, replicate_add_eq]
  · have h := flex_render_eq_spec
      { components := [], padding := (P : Int), spacing := S, direction := d } [] rfl
    rw [h]
    simp [specLayoutOutput, String.intercalate, replicate_add_eq, specFlexSeparator]

/-- C5: `Add(cs...)` on a layout with children `xs` leaves the children `xs` followed by
`cs` in argument order and leaves padding and spacing (and a flex layout's direction)
unchanged, on `BaseLayout` and through the promoted method of both layouts; two successive
calls `Add(cs1...)`, `Add(cs2...)` leave the same layout as the single call
`Add` of `cs1` followed by `cs2`. -/
theorem add_appends (l : BaseLayout) (sl : StackLayout) (fl : FlexLayout)
    (cs cs1 cs2 : List Component) :
    ((l.Add cs).components = l.components ++ cs ∧ (l.Add cs).padding = l.padding ∧
      (l.Add cs).spacing = l.spacing ∧ (l.Add cs1).Add cs2 = l.Add (cs1 ++ cs2)) ∧
    ((sl.Add cs).components = sl.components ++ cs ∧ (sl.Add cs).padding = sl.padding ∧
      (sl.Add cs).spacing = sl.spacing ∧ (sl.Add cs1).Add cs2 = sl.Add (cs1 ++ cs2)) ∧
    ((fl.Add cs).components = fl.components ++ cs ∧ (fl.Add cs).padding = fl.padding ∧
      (fl.Add cs).spacing = fl.spacing ∧ (fl.Add cs).direction = fl.direction ∧
      (fl.Add cs1).Add cs2 = fl.Add (cs1 ++ cs2)) := by
  refine ⟨⟨rfl, rfl, rfl, ?_⟩, ⟨rfl, rfl, rfl, ?_⟩, ⟨rfl, rfl, rfl, rfl, ?_⟩⟩
  · simp [BaseLayout.Add, List.append_assoc]
  · simp [StackLayout.Add, BaseLayout.Add, List.append_assoc]
  · simp [FlexLayout.Add, BaseLayout.Add, List.append_assoc]


/-! ## Buttons -/

theorem button_click_disabled {σ : Type} (b : Button σ) (hd : b.disabled = true) (w : σ) :
    b.Click w = w := by
  simp [Button.Click, hd]

theorem button_click_iterate_disabled {σ : Type} (b : Button σ) (hd : b.disabled = true)
    (n : Nat) (w : σ) : (b.Click)^[n] w = w := by
  induction n with
  | zero => rfl
  | succ k ih => rw [Function.iterate_succ_apply, button_click_disabled b hd, ih]

/-- C6: `Click` invokes the stored callback exactly once when `disabled` is false and a
callback is set (the state becomes the callback applied once, and a counting stub goes up by
exactly one); when `disabled` is true or no callback is set it leaves the state unchanged;
and any number of `Click` calls on a disabled button leaves the state, and so a counting
stub, at its initial value. -/
theorem button_click_guard {σ : Type} (b : Button σ) (c : Button (σ × Nat)) (w : σ)
    (n k : Nat) :
    (∀ f : σ → σ, b.disabled = false → b.onClick = some f → b.Click w = f w) ∧
    ((b.disabled = true ∨ b.onClick = none) → b.Click w = w) ∧
    (b.disabled = true → (b.Click)^[n] w = w) ∧
    (∀ callback : σ → σ, c.onClick = some (countingStub callback) →
      (c.disabled = false → c.Click (w, k) = (callback w, k + 1)) ∧
      (c.disabled = true → (c.Click)^[n] (w, k) = (w, k))) := by
  refine ⟨?_, ?_, ?_, ?_⟩
  · intro f hd hf
    simp [Button.Click, hd, hf]
  · intro h
    rcases h with hd | hf
    · exact button_click_disabled b hd w
    · simp [Button.Click, hf]
  · intro hd
    exact button_click_iterate_disabled b hd n w
  · intro callback hc
    refine ⟨?_, ?_⟩
    · intro hd
      simp [Button.Click, hd, hc, countingStub]
    · intro hd
      exact button_click_iterate_disabled c hd n (w, k)

/-- Witness of C6: an enabled button around a counting stub counts one click; once disabled,
five clicks leave the counter at its initial value. -/
theorem button_click_guard_witness :
    Button.Click (NewButton "+" (some (countingStub (fun u : Unit => u)))) ((), 0) = ((), 1) ∧
    (Button.Click (Button.SetDisabled
      (NewButton "+" (some (countingStub (fun u : Unit => u)))) true))^[5] ((), 0) = ((), 0) :=
  ⟨((button_click_guard (NewButton "+" (some (fun u : Unit => u)))
      (NewButton "+" (some (countingStub (fun u : Unit => u)))) () 5 0).2.2.2
      (fun u : Unit => u) rfl).1 rfl,
   ((button_click_guard (NewButton "+" (some (fun u : Unit => u)))
      (Button.SetDisabled (NewButton "+" (some (countingStub (fun u : Unit => u)))) true)
      () 5 0).2.2.2 (fun u : Unit => u) rfl).2 rfl⟩

/-! ## Event dispatch -/

/-- C7: for every handler list (each handler given by its answer `Event → Bool` and its
effect on the state) and every event, `DispatchEvent` returns true if and only if at least
one handler answers true on the event; it returns false on a new manager (no handler) and
when every handler answers false. -/
theorem dispatch_true_iff {σ : Type} (hs : List ((Event → Bool) × (Event → σ → σ)))
    (event : Event) (w : σ) :
    ((EventManager.DispatchEvent { handlers := hs.map (fun h => EventHandler.ofFn h.1 h.2) }
        event w).handled = true ↔ ∃ h ∈ hs, h.1 event = true) ∧
    ((NewEventManager : EventManager σ).DispatchEvent event w).handled = false ∧
    (EventManager.DispatchEvent
      { handlers := hs.map (fun h => EventHandler.ofFn (fun _ => false) h.2) }
      event w).handled = false := by
  refine ⟨?_, rfl, ?_⟩
  · simp only [EventManager.DispatchEvent, dispatchLoop_ofFn, List.any_eq_true]
  · have h := dispatchLoop_ofFn (hs.map (fun h => ((fun _ => false), h.2))) event
      { handlers := hs.map (fun h => EventHandler.ofFn (fun _ => false) h.2) } w
    simp only [List.map_map] at h
    simp only [EventManager.DispatchEvent]
    have e : (fun h : (Event → Bool) × (Event → σ → σ) =>
          EventHandler.ofFn (fun _ => false) h.2)
        = ((fun h : (Event → Bool) × (Event → σ → σ) => EventHandler.ofFn h.1 h.2)
            ∘ fun h => ((fun _ => false), h.2)) := rfl
    rw [← e] at h
    rw [h]
    simp

/-- C9 fails on the code: a handler (a Go closure) that calls `AddHandler` on its manager
while it is dispatched to makes the handler list grow across `DispatchEvent`, here from one
handler to two. -/
theorem dispatch_grows_handler_list :
    (EventManager.AddHandler (NewEventManager : EventManager Unit)
      (EventHandler.mk (fun _ w => (false, w))
        (fun _ _ => [EventHandler.ofFn (fun _ => false) (fun _ w => w)]))).handlers.length
      = 1 ∧
    (EventManager.DispatchEvent
      (EventManager.AddHandler (NewEventManager : EventManager Unit)
        (EventHandler.mk (fun _ w => (false, w))
          (fun _ _ => [EventHandler.ofFn (fun _ => false) (fun _ w => w)])))
      { type := 0, WindowID := 0, MouseX := 0, MouseY := 0, MouseButton := 0, KeyCode := 0,
        Modifiers := 0, Repeat := false, KeyChar := 0 } ()).em.handlers.length = 2 := by
  constructor <;> rfl

/-- C9 as amended: `AddHandler(h)` makes the handler list the old list followed by `h`, and
a new manager starts with the empty list.  `DispatchEvent` never removes, replaces or
reorders a handler: after it the list is the old list followed by the handlers that the
invoked handlers registered during the dispatch, in order (`specRegistered`); so the
manager is left as it was when no handler registers one, as with handlers that are
functions of the event. -/
theorem handlers_append_only {σ : Type} (em : EventManager σ) (h : EventHandler σ)
    (event : Event) (w : σ) (hs : List ((Event → Bool) × (Event → σ → σ))) :
    (em.AddHandler h).handlers = em.handlers ++ [h] ∧
    (NewEventManager : EventManager σ).handlers = [] ∧
    (em.DispatchEvent event w).em.handlers
      = em.handlers ++ specRegistered em.handlers event w ∧
    ((∀ g ∈ em.handlers, ∀ e s, g.registers e s = []) →
      (em.DispatchEvent event w).em = em) ∧
    (EventManager.DispatchEvent { handlers := hs.map (fun h => EventHandler.ofFn h.1 h.2) }
      event w).em.handlers = hs.map (fun h => EventHandler.ofFn h.1 h.2) := by
  refine ⟨rfl, rfl, ?_, ?_, ?_⟩
  · exact dispatchLoop_handlers em.handlers event em w
  · intro hnone
    have e := dispatchLoop_handlers em.handlers event em w
    rw [specRegistered_nil em.handlers hnone, List.append_nil] at e
    cases em with
    | mk hl =>
      show (dispatchLoop hl event { handlers := hl } w).2.1 = { handlers := hl }
      cases hd : (dispatchLoop hl event { handlers := hl } w).2.1 with
      | mk hl2 =>
        rw [hd] at e
        simp only at e
        rw [e]
  · simp only [EventManager.DispatchEvent, dispatchLoop_ofFn]

/-- Witness of C9: a manager with two handlers that are functions of the event has the same
two handlers after a dispatch. -/
theorem handlers_append_only_witness :
    (EventManager.DispatchEvent
      { handlers := [EventHandler.ofFn (fun _ => false) (fun _ (t : List Nat) => t ++ [1]),
                     EventHandler.ofFn (fun _ => true) (fun _ t => t ++ [2])] }
      { type := 0, WindowID := 0, MouseX := 0, MouseY := 0, MouseButton := 0, KeyCode := 0,
        Modifiers := 0, Repeat := false, KeyChar := 0 } []).em.handlers.length = 2 :=
  congrArg (fun m => m.handlers.length)
    ((handlers_append_only
      { handlers := [EventHandler.ofFn (fun _ => false) (fun _ (t : List Nat) => t ++ [1]),
                     EventHandler.ofFn (fun _ => true) (fun _ t => t ++ [2])] }
      (EventHandler.ofFn (fun _ => false) (fun _ t => t))
      { type := 0, WindowID := 0, MouseX := 0, MouseY := 0, MouseButton := 0, KeyCode := 0,
        Modifiers := 0, Repeat := false, KeyChar := 0 } [] []).2.2.2.1
      (fun g hg e s => by
        simp only [List.mem_cons, List.mem_singleton, List.not_mem_nil, or_false] at hg
        rcases hg with hg | hg <;> rw [hg] <;> rfl))

/-! ## Backend selection -/

/-- C10: for every Config with `RenderMode = WebMode` and every port, whatever `Initialize`
of the native renderer would return, `NewAppWithConfig` gives an app with `nativeActive`
false and `webRenderer` a new web renderer bound to `config.Port`; native initialization is
not attempted (no call of `Initialize`, nothing printed, `CurrentRenderer` untouched). -/
theorem web_mode_selects_web (nativeInit : FyneRenderer → FyneRenderer × Option String)
    (config : Config) (w : World) (hmode : config.RenderMode = WebMode) :
    (NewAppWithConfig nativeInit config w).1.nativeActive = false ∧
    (NewAppWithConfig nativeInit config w).1.webRenderer = some (NewWebRenderer config.Port) ∧
    (NewAppWithConfig nativeInit config w).1.webRenderer.map WebRenderer.port
      = some config.Port ∧
    (NewAppWithConfig nativeInit config w).2.nativeInitCalls = w.nativeInitCalls ∧
    (NewAppWithConfig nativeInit config w).2.stdout = w.stdout ∧
    (NewAppWithConfig nativeInit config w).2.currentApp
      = some (NewAppWithConfig nativeInit config w).1 ∧
    (NewAppWithConfig nativeInit config w).2.CurrentRenderer = w.CurrentRenderer ∧
    NewAppWithConfig nativeInit config w
      = NewAppWithConfig FyneRenderer.Initialize config w := by
  simp [NewAppWithConfig, hmode, NewWebRenderer]

/-- Witness of C10: web mode on port 9000 in an environment where native initialization
would fail. -/
theorem web_mode_selects_web_witness :
    (NewAppWithConfig (fun r => (r, some "no display"))
      { Title := "t", Width := 800, Height := 600, RenderMode := WebMode, Port := 9000 }
      { stdout := [], CurrentRenderer := none, currentApp := none,
        nativeInitCalls := 0 }).1.nativeActive = false ∧
    (NewAppWithConfig (fun r => (r, some "no display"))
      { Title := "t", Width := 800, Height := 600, RenderMode := WebMode, Port := 9000 }
      { stdout := [], CurrentRenderer := none, currentApp := none,
        nativeInitCalls := 0 }).1.webRenderer.map WebRenderer.port = some 9000 :=
  ⟨(web_mode_selects_web (fun r => (r, some "no display"))
      { Title := "t", Width := 800, Height := 600, RenderMode := WebMode, Port := 9000 }
      { stdout := [], CurrentRenderer := none, currentApp := none, nativeInitCalls := 0 }
      rfl).1,
   (web_mode_selects_web (fun r => (r, some "no display"))
      { Title := "t", Width := 800, Height := 600, RenderMode := WebMode, Port := 9000 }
      { stdout := [], CurrentRenderer := none, currentApp := none, nativeInitCalls := 0 }
      rfl).2.2.1⟩


/-! ## Decimal formatting -/

theorem digitChar_spec : ∀ k : Nat, k < 10 →
    digitValue (Nat.digitChar k) = k ∧ (Nat.digitChar k).isDigit = true := by
  decide

theorem decodeDigits_append_singleton (ds : List Char) (d : Char) :
    decodeDigits (ds ++ [d]) = 10 * decodeDigits ds + digitValue d := by
  simp [decodeDigits, List.foldl_append]

theorem toDigitsCore_spec (fuel : Nat) : ∀ (n : Nat) (acc : List Char), n < fuel →
    ∃ ds, Nat.toDigitsCore 10 fuel n acc = ds ++ acc ∧
      (∀ c ∈ ds, c.isDigit = true) ∧ decodeDigits ds = n := by
  induction fuel with
  | zero => intro n acc h; omega
  | succ f ih =>
    intro n acc h
    obtain ⟨hv, hd⟩ := digitChar_spec (n % 10) (Nat.mod_lt _ (by decide))
    by_cases h0 : n / 10 = 0
    · refine ⟨[Nat.digitChar (n % 10)], ?_, ?_, ?_⟩
      · simp [Nat.toDigitsCore, h0]
      · intro c hc
        simp only [List.mem_singleton] at hc
        rw [hc]; exact hd
      · simp only [decodeDigits, List.foldl_cons, List.foldl_nil, hv]
        omega
    · obtain ⟨ds, e, hall, hdec⟩ := ih (n / 10) (Nat.digitChar (n % 10) :: acc) (by omega)
      refine ⟨ds ++ [Nat.digitChar (n % 10)], ?_, ?_, ?_⟩
      · simp [Nat.toDigitsCore, h0, e]
      · intro c hc
        rcases List.mem_append.mp hc with hc | hc
        · exact hall c hc
        · simp only [List.mem_singleton] at hc
          rw [hc]; exact hd
      · rw [decodeDigits_append_singleton, hdec, hv]
        omega

theorem natRepr_spec (n : Nat) :
    (∀ c ∈ (Nat.repr n).data, c.isDigit = true) ∧ decodeDigits (Nat.repr n).data = n := by
  obtain ⟨ds, e, hall, hdec⟩ := toDigitsCore_spec (n + 1) n [] (by omega)
  have hr : (Nat.repr n).data = ds := by
    simp [Nat.repr, Nat.toDigits, e, List.asString]
  rw [hr]
  exact ⟨hall, hdec⟩

theorem formatInt_data (a : Int) :
    (∃ m : Nat, a = Int.ofNat m ∧ (formatInt a).data = (Nat.repr m).data) ∨
    (∃ m : Nat, a = Int.negSucc m ∧ (formatInt a).data = '-' :: (Nat.repr (m + 1)).data) := by
  cases a with
  | ofNat m => exact Or.inl ⟨m, rfl, rfl⟩
  | negSucc m => exact Or.inr ⟨m, rfl, rfl⟩

theorem formatInt_no_space (a : Int) : ' ' ∉ (formatInt a).data := by
  intro h
  rcases formatInt_data a with ⟨m, -, e⟩ | ⟨m, -, e⟩
  · rw [e] at h
    exact absurd ((natRepr_spec m).1 _ h) (by decide)
  · rw [e] at h
    rcases List.mem_cons.mp h with h | h
    · exact absurd h (by decide)
    · exact absurd ((natRepr_spec (m + 1)).1 _ h) (by decide)

theorem formatInt_injective (a b : Int) (h : formatInt a = formatInt b) : a = b := by
  have hd := congrArg String.data h
  rcases formatInt_data a with ⟨m, ea, da⟩ | ⟨m, ea, da⟩ <;>
    rcases formatInt_data b with ⟨k, eb, db⟩ | ⟨k, eb, db⟩
  · rw [da, db] at hd
    have := congrArg decodeDigits hd
    rw [(natRepr_spec m).2, (natRepr_spec k).2] at this
    rw [ea, eb, this]
  · rw [da, db] at hd
    have hm : '-' ∈ (Nat.repr m).data := by rw [hd]; exact List.mem_cons_self _ _
    exact absurd ((natRepr_spec m).1 _ hm) (by decide)
  · rw [da, db] at hd
    have hm : '-' ∈ (Nat.repr k).data := by rw [← hd]; exact List.mem_cons_self _ _
    exact absurd ((natRepr_spec k).1 _ hm) (by decide)
  · rw [da, db] at hd
    have := congrArg decodeDigits (List.cons.inj hd).2
    rw [(natRepr_spec (m + 1)).2, (natRepr_spec (k + 1)).2] at this
    have hmk : m = k := by omega
    rw [ea, eb, hmk]

/-! ## Lemmas on lists cut at a separator -/

theorem split_at_first {α : Type} (c : α) : ∀ (x y r s : List α), c ∉ x → c ∉ y →
    x ++ c :: r = y ++ c :: s → x = y ∧ r = s := by
  intro x
  induction x with
  | nil =>
    intro y r s _ hy h
    cases y with
    | nil => simpa using h
    | cons b t =>
      simp only [List.nil_append, List.cons_append, List.cons.injEq] at h
      exact absurd (h.1 ▸ List.mem_cons_self _ _) hy
  | cons a t ih =>
    intro y r s hx hy h
    cases y with
    | nil =>
      simp only [List.nil_append, List.cons_append, List.cons.injEq] at h
      exact absurd (h.1 ▸ List.mem_cons_self _ _) hx
    | cons b u =>
      simp only [List.cons_append, List.cons.injEq] at h
      obtain ⟨hab, ht⟩ := h
      obtain ⟨e1, e2⟩ := ih u r s (fun hm => hx (List.mem_cons_of_mem _ hm))
        (fun hm => hy (List.mem_cons_of_mem _ hm)) ht
      exact ⟨by rw [hab, e1], e2⟩

theorem split_at_last {α : Type} (c : α) (p q m n : List α) (hm : c ∉ m) (hn : c ∉ n)
    (h : p ++ c :: m = q ++ c :: n) : p = q ∧ m = n := by
  have hr := congrArg List.reverse h
  simp only [List.reverse_append, List.reverse_cons, List.append_assoc,
    List.singleton_append] at hr
  obtain ⟨e1, e2⟩ := split_at_first c m.reverse n.reverse p.reverse q.reverse
    (by simpa using hm) (by simpa using hn) hr
  exact ⟨List.reverse_injective e2, List.reverse_injective e1⟩

/-! ## Lemmas on the application -/

theorem tryNativeRenderer_fst (nativeInit : FyneRenderer → FyneRenderer × Option String)
    (w : World) : (tryNativeRenderer nativeInit w).1 = (nativeInit NewFyneRenderer).2.isNone := by
  cases h : (nativeInit NewFyneRenderer).2 <;> simp [tryNativeRenderer, h]

theorem newApp_backend (nativeInit : FyneRenderer → FyneRenderer × Option String)
    (config : Config) (w : World) :
    (NewAppWithConfig nativeInit config w).1.nativeActive
        = (decide (config.RenderMode ≠ WebMode) && (nativeInit NewFyneRenderer).2.isNone) ∧
      (NewAppWithConfig nativeInit config w).1.webRenderer
        = (if (NewAppWithConfig nativeInit config w).1.nativeActive then none
            else some (NewWebRenderer config.Port)) ∧
      (NewAppWithConfig nativeInit config w).1.windows = [] ∧
      (NewAppWithConfig nativeInit config w).1.config.Port = config.Port := by
  by_cases hw : config.RenderMode = WebMode
  · simp [NewAppWithConfig, hw]
  · by_cases hn : config.RenderMode = NativeMode
    · cases h : (nativeInit NewFyneRenderer).2 <;>
        simp [NewAppWithConfig, hw, hn, tryNativeRenderer_fst, h, NativeMode, WebMode]
    · cases h : (nativeInit NewFyneRenderer).2 <;>
        simp [NewAppWithConfig, hw, hn, tryNativeRenderer_fst, h]

theorem addWindows_fields (a : App) (wins : List Window) :
    (wins.foldl App.AddWindow a).nativeActive = a.nativeActive ∧
      (wins.foldl App.AddWindow a).webRenderer = a.webRenderer ∧
      (wins.foldl App.AddWindow a).config = a.config ∧
      (wins.foldl App.AddWindow a).windows = a.windows ++ wins := by
  induction wins generalizing a with
  | nil => simp
  | cons x t ih =>
    obtain ⟨h1, h2, h3, h4⟩ := ih (a.AddWindow x)
    simp only [List.foldl_cons]
    refine ⟨h1, h2, h3, ?_⟩
    rw [h4]
    simp [App.AddWindow]

/-! ## Backend selection: native and automatic mode -/

/-- C11: for every Config with `RenderMode = NativeMode`: when `Initialize` of the native
renderer returns an error, `NewAppWithConfig` prints the diagnostics and gives an app with
`nativeActive` false and a web renderer bound to `config.Port`; when it returns no error the
app has `nativeActive` true and no web renderer, and nothing is printed. -/
theorem native_mode_selects (nativeInit : FyneRenderer → FyneRenderer × Option String)
    (config : Config) (w : World) (hmode : config.RenderMode = NativeMode) :
    (∀ err, (nativeInit NewFyneRenderer).2 = some err →
      (NewAppWithConfig nativeInit config w).1.nativeActive = false ∧
      (NewAppWithConfig nativeInit config w).1.webRenderer
        = some (NewWebRenderer config.Port) ∧
      (NewAppWithConfig nativeInit config w).1.webRenderer.map WebRenderer.port
        = some config.Port ∧
      (NewAppWithConfig nativeInit config w).2.stdout = w.stdout ++
        ["Failed to initialize native renderer: " ++ err,
         "Native renderer not available, falling back to web renderer"]) ∧
    ((nativeInit NewFyneRenderer).2 = none →
      (NewAppWithConfig nativeInit config w).1.nativeActive = true ∧
      (NewAppWithConfig nativeInit config w).1.webRenderer = none ∧
      (NewAppWithConfig nativeInit config w).2.stdout = w.stdout ∧
      (NewAppWithConfig nativeInit config w).2.CurrentRenderer
        = some (RendererBackend.fyne (nativeInit NewFyneRenderer).1)) := by
  constructor
  · intro err h
    simp [NewAppWithConfig, hmode, tryNativeRenderer, h, NativeMode, WebMode, NewWebRenderer]
  · intro h
    simp [NewAppWithConfig, hmode, tryNativeRenderer, h, NativeMode, WebMode]

/-- Witness of C11: native mode on port 9000 where `Initialize` returns the error
"no display". -/
theorem native_mode_selects_witness :
    (NewAppWithConfig (fun r => (r, some "no display"))
      { Title := "t", Width := 800, Height := 600, RenderMode := NativeMode, Port := 9000 }
      { stdout := [], CurrentRenderer := none, currentApp := none,
        nativeInitCalls := 0 }).1.webRenderer.map WebRenderer.port = some 9000 ∧
    (NewAppWithConfig (fun r => (r, some "no display"))
      { Title := "t", Width := 800, Height := 600, RenderMode := NativeMode, Port := 9000 }
      { stdout := [], CurrentRenderer := none, currentApp := none,
        nativeInitCalls := 0 }).2.stdout
      = ["Failed to initialize native renderer: no display",
         "Native renderer not available, falling back to web renderer"] ∧
    (NewAppWithConfig FyneRenderer.Initialize
      { Title := "t", Width := 800, Height := 600, RenderMode := NativeMode, Port := 9000 }
      { stdout := [], CurrentRenderer := none, currentApp := none,
        nativeInitCalls := 0 }).1.nativeActive = true :=
  ⟨((native_mode_selects (fun r => (r, some "no display"))
      { Title := "t", Width := 800, Height := 600, RenderMode := NativeMode, Port := 9000 }
      { stdout := [], CurrentRenderer := none, currentApp := none, nativeInitCalls := 0 }
      rfl).1 "no display" rfl).2.2.1,
   ((native_mode_selects (fun r => (r, some "no display"))
      { Title := "t", Width := 800, Height := 600, RenderMode := NativeMode, Port := 9000 }
      { stdout := [], CurrentRenderer := none, currentApp := none, nativeInitCalls := 0 }
      rfl).1 "no display" rfl).2.2.2,
   ((native_mode_selects FyneRenderer.Initialize
      { Title := "t", Width := 800, Height := 600, RenderMode := NativeMode, Port := 9000 }
      { stdout := [], CurrentRenderer := none, currentApp := none, nativeInitCalls := 0 }
      rfl).2 rfl).1⟩

/-- C12: for every Config with `RenderMode = AutoMode`, `NewAppWithConfig` calls
`Initialize` of the native renderer (once, before anything else): when it returns no error
the app is native-active and no web renderer is constructed; when it returns an error the
app is not native-active and holds a web renderer bound to `config.Port`. -/
theorem auto_mode_selects (nativeInit : FyneRenderer → FyneRenderer × Option String)
    (config : Config) (w : World) (hmode : config.RenderMode = AutoMode) :
    (NewAppWithConfig nativeInit config w).2.nativeInitCalls = w.nativeInitCalls + 1 ∧
    ((nativeInit NewFyneRenderer).2 = none →
      (NewAppWithConfig nativeInit config w).1.nativeActive = true ∧
      (NewAppWithConfig nativeInit config w).1.webRenderer = none) ∧
    (∀ err, (nativeInit NewFyneRenderer).2 = some err →
      (NewAppWithConfig nativeInit config w).1.nativeActive = false ∧
      (NewAppWithConfig nativeInit config w).1.webRenderer
        = some (NewWebRenderer config.Port) ∧
      (NewAppWithConfig nativeInit config w).1.webRenderer.map WebRenderer.port
        = some config.Port ∧
      (NewAppWithConfig nativeInit config w).2.stdout
        = w.stdout ++ ["Failed to initialize native renderer: " ++ err]) := by
  refine ⟨?_, ?_, ?_⟩
  · cases h : (nativeInit NewFyneRenderer).2 <;>
      simp [NewAppWithConfig, hmode, tryNativeRenderer, h, NativeMode, WebMode, AutoMode]
  · intro h
    simp [NewAppWithConfig, hmode, tryNativeRenderer, h, NativeMode, WebMode, AutoMode]
  · intro err h
    simp [NewAppWithConfig, hmode, tryNativeRenderer, h, NativeMode, WebMode, AutoMode,
      NewWebRenderer]

/-- Witness of C12: automatic mode on port 9000, once where `Initialize` returns no error
and once where it returns the error "no display". -/
theorem auto_mode_selects_witness :
    (NewAppWithConfig FyneRenderer.Initialize
      { Title := "t", Width := 800, Height := 600, RenderMode := AutoMode, Port := 9000 }
      { stdout := [], CurrentRenderer := none, currentApp := none,
        nativeInitCalls := 0 }).1.nativeActive = true ∧
    (NewAppWithConfig (fun r => (r, some "no display"))
      { Title := "t", Width := 800, Height := 600, RenderMode := AutoMode, Port := 9000 }
      { stdout := [], CurrentRenderer := none, currentApp := none,
        nativeInitCalls := 0 }).1.webRenderer.map WebRenderer.port = some 9000 :=
  ⟨((auto_mode_selects FyneRenderer.Initialize
      { Title := "t", Width := 800, Height := 600, RenderMode := AutoMode, Port := 9000 }
      { stdout := [], CurrentRenderer := none, currentApp := none, nativeInitCalls := 0 }
      rfl).2.1 rfl).1,
   ((auto_mode_selects (fun r => (r, some "no display"))
      { Title := "t", Width := 800, Height := 600, RenderMode := AutoMode, Port := 9000 }
      { stdout := [], CurrentRenderer := none, currentApp := none, nativeInitCalls := 0 }
      rfl).2.2 "no display" rfl).2.2.1⟩

/-- C13: for every Config (any integer as `RenderMode`, any port) and every outcome of
`Initialize` of the native renderer, `NewAppWithConfig` returns an app with exactly one
active backend: `nativeActive` true and `webRenderer` nil, or `nativeActive` false and
`webRenderer` a web renderer bound to `config.Port`.  So on this app, also after any calls
of `AddWindow`, neither `ShowDialog` nor `Run` goes through a nil web renderer. -/
theorem exactly_one_backend (nativeInit : FyneRenderer → FyneRenderer × Option String)
    (config : Config) (w w2 : World) (wins : List Window) (now : Int)
    (title message : String) (buttons : List String) :
    (((NewAppWithConfig nativeInit config w).1.nativeActive = true ∧
        (NewAppWithConfig nativeInit config w).1.webRenderer = none) ∨
      ((NewAppWithConfig nativeInit config w).1.nativeActive = false ∧
        (NewAppWithConfig nativeInit config w).1.webRenderer
          = some (NewWebRenderer config.Port) ∧
        (NewAppWithConfig nativeInit config w).1.webRenderer.map WebRenderer.port
          = some config.Port)) ∧
    ((wins.foldl App.AddWindow (NewAppWithConfig nativeInit config w).1).ShowDialog
      now title message buttons w2).isSome = true ∧
    ((wins.foldl App.AddWindow (NewAppWithConfig nativeInit config w).1).Run w2).1
      ≠ RunOutcome.nilPointer := by
  obtain ⟨h1, h2, -, -⟩ := newApp_backend nativeInit config w
  obtain ⟨f1, f2, -, f4⟩ := addWindows_fields (NewAppWithConfig nativeInit config w).1 wins
  cases hna : (NewAppWithConfig nativeInit config w).1.nativeActive with
  | true =>
    rw [hna] at h2 f1
    simp only [if_true] at h2
    refine ⟨Or.inl ⟨rfl, h2⟩, ?_, ?_⟩
    · simp [App.ShowDialog, f1]
    · unfold App.Run
      rw [f1]
      split
      · simp
      · simp [runNativeApp, WebRenderer.Run]
  | false =>
    rw [hna] at h2 f1
    simp only [Bool.false_eq_true, if_false] at h2
    rw [h2] at f2
    refine ⟨Or.inr ⟨rfl, h2, by simp [h2, NewWebRenderer]⟩, ?_, ?_⟩
    · simp [App.ShowDialog, f1, f2]
    · unfold App.Run
      rw [f1, f2]
      split
      · simp
      · simp [WebRenderer.Run]

/-! ## Spacer, button and layout equivalence -/

theorem stringsRepeat_newline (n : Nat) :
    stringsRepeat "\n" (n : Int) = some (String.replicate n '\n') := by
  have h := writeRepeat_eq '\n' n ""
  have e : String.singleton '\n' = "\n" := rfl
  rw [e] at h
  simp [stringsRepeat, h]

/-- C14: for every size `n ≥ 0`, `Render` of a spacer of size `n` returns exactly `n`
newline characters (a string of length `n`, in bytes and in characters), the empty string
for `n = 0`; and `SetSize(n)` followed by `Render` gives that output whatever the previous
size was. -/
theorem spacer_render_newlines (n : Nat) (s : Spacer) :
    (NewSpacer (n : Int)).Render = some (String.replicate n '\n') ∧
    goLen (String.replicate n '\n') = n ∧
    (String.replicate n '\n').length = n ∧
    (NewSpacer 0).Render = some "" ∧
    (s.SetSize (n : Int)).Render = some (String.replicate n '\n') ∧
    (s.SetSize (n : Int)).Render = (NewSpacer (n : Int)).Render :=
  ⟨stringsRepeat_newline n, goLen_replicate '\n' rfl n, String.length_replicate n '\n',
    rfl, stringsRepeat_newline n, rfl⟩

/-- C16: `Render` of a button is "[Button: " + text + (" (disabled)" if disabled) +
" (size: " + width + "x" + height + ", colors: " + color + " on " + bgColor + ")]" with
width and height in decimal; a disabled button never renders the same string as the enabled
button with the same other fields. -/
theorem button_render_reflects {σ : Type} (b : Button σ) :
    b.Render = "[Button: " ++ b.text ++ (if b.disabled then " (disabled)" else "")
      ++ " (size: " ++ formatInt b.width ++ "x" ++ formatInt b.height
      ++ ", colors: " ++ b.color ++ " on " ++ b.bgColor ++ ")]" ∧
    (b.SetDisabled true).Render ≠ (b.SetDisabled false).Render ∧
    (b.SetDisabled true).Render = "[Button: " ++ b.text ++ " (disabled) (size: "
      ++ formatInt b.width ++ "x" ++ formatInt b.height
      ++ ", colors: " ++ b.color ++ " on " ++ b.bgColor ++ ")]" ∧
    (Button.SetDisabled (NewButton "Go" b.onClick) true).Render
      = "[Button: Go (disabled) (size: 100x30, colors: white on blue)]" ∧
    (NewButton "Go" b.onClick).Render
      = "[Button: Go (size: 100x30, colors: white on blue)]" := by
  refine ⟨rfl, ?_, ?_, rfl, rfl⟩
  · intro h
    have hl := congrArg String.length h
    simp only [Button.Render, Button.SetDisabled, String.length_append, if_true,
      Bool.false_eq_true, if_false] at hl
    have e1 : (" (disabled)" : String).length = 11 := by decide
    have e2 : ("" : String).length = 0 := by decide
    rw [e1, e2] at hl
    omega
  · simp [Button.Render, Button.SetDisabled, String.append_assoc]

theorem flex_vertical_render (fl : FlexLayout) (sl : StackLayout)
    (hb : fl.toBaseLayout = sl.toBaseLayout) (hd : fl.direction = Vertical) :
    fl.Render = sl.Render := by
  simp [FlexLayout.Render, StackLayout.Render, FlexLayout.separator, hd, hb]

theorem calls_keep_vertical (calls : List LayoutCall) (fl : FlexLayout) (sl : StackLayout)
    (hb : fl.toBaseLayout = sl.toBaseLayout) (hd : fl.direction = Vertical) :
    (calls.foldl FlexLayout.call fl).toBaseLayout
        = (calls.foldl StackLayout.call sl).toBaseLayout ∧
      (calls.foldl FlexLayout.call fl).direction = Vertical := by
  induction calls generalizing fl sl with
  | nil => exact ⟨hb, hd⟩
  | cons c t ih =>
    simp only [List.foldl_cons]
    apply ih
    · cases c <;>
        simp [FlexLayout.call, StackLayout.call, FlexLayout.Add, StackLayout.Add,
          FlexLayout.SetPadding, StackLayout.SetPadding, FlexLayout.SetSpacing,
          StackLayout.SetSpacing, hb]
    · cases c <;>
        simp [FlexLayout.call, FlexLayout.Add, FlexLayout.SetPadding, FlexLayout.SetSpacing, hd]

/-- C17: for every list of children, padding and spacing, a FlexLayout whose direction is
`Vertical` renders exactly as the StackLayout with the same children, padding and spacing;
`NewFlexLayout` sets the direction `Vertical`, so a FlexLayout and a StackLayout built by the
same calls of `Add`, `SetPadding` and `SetSpacing` (and no `SetDirection`) render alike. -/
theorem flex_vertical_is_stack (b : BaseLayout) (calls : List LayoutCall) :
    FlexLayout.Render { toBaseLayout := b, direction := Vertical }
      = StackLayout.Render { toBaseLayout := b } ∧
    NewFlexLayout.direction = Vertical ∧
    (calls.foldl FlexLayout.call NewFlexLayout).Render
      = (calls.foldl StackLayout.call NewStackLayout).Render := by
  refine ⟨flex_vertical_render _ _ rfl rfl, rfl, ?_⟩
  obtain ⟨h1, h2⟩ := calls_keep_vertical calls NewFlexLayout NewStackLayout rfl rfl
  exact flex_vertical_render _ _ h1 h2

/-! ## Running the application and dialogs -/

/-- C18: `AddWindow` appends the window to the app's list; `Run` on an app with no window
ends in `log.Fatal` with the "No windows to display" message, nothing printed and no
renderer reached; on an app with at least one window `Run` passes the check and hands
`a.windows` to the active renderer: to `runNativeApp` when `nativeActive`, else to the
`Run` of the app's web renderer, which serves these windows. -/
theorem run_checks_windows (a : App) (window : Window) (w : World) :
    (a.AddWindow window).windows = a.windows ++ [window] ∧
    (a.windows = [] → a.Run w = (RunOutcome.fatal
      "Error: No windows to display. Create a window with NewWindow() first.", w)) ∧
    (a.windows ≠ [] → a.nativeActive = true →
      a.Run w = runNativeApp a.windows
        { w with stdout := w.stdout ++ ["Starting Gonic in native mode..."] }) ∧
    (a.windows ≠ [] → a.nativeActive = false → ∀ r, a.webRenderer = some r →
      (a.Run w).1 = r.Run a.windows ∧
      (a.Run w).1 = RunOutcome.serving { r with windows := a.windows }
        (":" ++ formatInt r.port) ∧
      (a.Run w).2.stdout = w.stdout ++
        ["Starting Gonic in web mode. Open your browser at http://localhost:"
          ++ formatInt a.config.Port]) ∧
    ((a.nativeActive = true ∨ a.webRenderer.isSome = true) → ∃ r2 addr,
      ((a.AddWindow window).Run w).1 = RunOutcome.serving r2 addr ∧
      r2.windows = a.windows ++ [window]) := by
  refine ⟨rfl, ?_, ?_, ?_, ?_⟩
  · intro h
    simp [App.Run, h]
  · intro h hn
    have hl : a.windows.length ≠ 0 := by
      intro h0; exact h (List.length_eq_zero.mp h0)
    simp [App.Run, hl, hn]
  · intro h hn r hr
    have hl : a.windows.length ≠ 0 := by
      intro h0; exact h (List.length_eq_zero.mp h0)
    simp [App.Run, hl, hn, hr, WebRenderer.Run]
  · intro hbackend
    cases hn : a.nativeActive with
    | true =>
      refine ⟨{ NewWebRenderer 8080 with windows := a.windows ++ [window] },
        ":" ++ formatInt 8080, ?_, rfl⟩
      simp [App.Run, App.AddWindow, hn, runNativeApp, WebRenderer.Run, NewWebRenderer]
    | false =>
      rw [hn] at hbackend
      obtain ⟨r, hr⟩ := Option.isSome_iff_exists.mp
        (hbackend.resolve_left (by simp))
      refine ⟨{ r with windows := a.windows ++ [window] }, ":" ++ formatInt r.port, ?_, rfl⟩
      simp [App.Run, App.AddWindow, hn, hr, WebRenderer.Run]

/-- Witness of C18: a web-mode app on port 9000 with no window ends in the fatal
diagnostic; after `AddWindow` it serves that window on ":9000". -/
theorem run_checks_windows_witness :
    App.Run (NewAppWithConfig FyneRenderer.Initialize
        { Title := "t", Width := 800, Height := 600, RenderMode := WebMode, Port := 9000 }
        { stdout := [], CurrentRenderer := none, currentApp := none,
          nativeInitCalls := 0 }).1
      { stdout := [], CurrentRenderer := none, currentApp := none, nativeInitCalls := 0 }
      = (RunOutcome.fatal
          "Error: No windows to display. Create a window with NewWindow() first.",
        { stdout := [], CurrentRenderer := none, currentApp := none, nativeInitCalls := 0 }) ∧
    (App.Run (App.AddWindow (NewAppWithConfig FyneRenderer.Initialize
        { Title := "t", Width := 800, Height := 600, RenderMode := WebMode, Port := 9000 }
        { stdout := [], CurrentRenderer := none, currentApp := none,
          nativeInitCalls := 0 }).1
        { title := "main", width := 800, height := 600, content := none })
      { stdout := [], CurrentRenderer := none, currentApp := none, nativeInitCalls := 0 }).1
      = RunOutcome.serving
          { NewWebRenderer 9000 with
            windows := [{ title := "main", width := 800, height := 600, content := none }] }
          ":9000" :=
  ⟨(run_checks_windows (NewAppWithConfig FyneRenderer.Initialize
        { Title := "t", Width := 800, Height := 600, RenderMode := WebMode, Port := 9000 }
        { stdout := [], CurrentRenderer := none, currentApp := none,
          nativeInitCalls := 0 }).1
      { title := "main", width := 800, height := 600, content := none }
      { stdout := [], CurrentRenderer := none, currentApp := none,
        nativeInitCalls := 0 }).2.1 rfl,
   ((run_checks_windows (App.AddWindow (NewAppWithConfig FyneRenderer.Initialize
        { Title := "t", Width := 800, Height := 600, RenderMode := WebMode, Port := 9000 }
        { stdout := [], CurrentRenderer := none, currentApp := none,
          nativeInitCalls := 0 }).1
        { title := "main", width := 800, height := 600, content := none })
      { title := "main", width := 800, height := 600, content := none }
      { stdout := [], CurrentRenderer := none, currentApp := none,
        nativeInitCalls := 0 }).2.2.2.1
      (by simp [App.AddWindow]) rfl (NewWebRenderer 9000) rfl).2.1⟩

/-- C19: while `currentApp` is nil the package-level `ShowDialog` returns 0 for every title,
message and button list, after printing the error line to standard error; it does not fail
and touches nothing else (no renderer, no standard output).  After `NewAppWithConfig`,
`currentApp` is the app just constructed (the later one of two), and `ShowDialog` delegates
to `currentApp.ShowDialog`, which on a constructed app returns 0. -/
theorem show_dialog_without_app (now : Int) (title message : String) (buttons : List String)
    (w : World) (nativeInit : FyneRenderer → FyneRenderer × Option String)
    (config config2 : Config) :
    (w.currentApp = none → ShowDialog now title message buttons w
      = some (0, { w with stderr := w.stderr ++ ["Error: No active application for dialog"] })) ∧
    (NewAppWithConfig nativeInit config w).2.currentApp
      = some (NewAppWithConfig nativeInit config w).1 ∧
    (NewAppWithConfig nativeInit config2 (NewAppWithConfig nativeInit config w).2).2.currentApp
      = some (NewAppWithConfig nativeInit config2 (NewAppWithConfig nativeInit config w).2).1 ∧
    (∀ a, w.currentApp = some a → ShowDialog now title message buttons w
      = (a.ShowDialog now title message buttons w).map
          (fun r => (r.1, { r.2.2 with currentApp := some r.2.1 }))) ∧
    (ShowDialog now title message buttons (NewAppWithConfig nativeInit config w).2).map
      Prod.fst = some 0 := by
  refine ⟨?_, rfl, rfl, ?_, ?_⟩
  · intro h
    simp [ShowDialog, h]
  · intro a h
    simp only [ShowDialog, h]
    cases a.ShowDialog now title message buttons w <;> rfl
  · obtain ⟨h1, h2, -, -⟩ := newApp_backend nativeInit config w
    have hc : (NewAppWithConfig nativeInit config w).2.currentApp
        = some (NewAppWithConfig nativeInit config w).1 := rfl
    simp only [ShowDialog, hc]
    cases hna : (NewAppWithConfig nativeInit config w).1.nativeActive with
    | true => simp [App.ShowDialog, hna, showNativeDialog]
    | false =>
      rw [hna] at h2
      simp only [Bool.false_eq_true, if_false] at h2
      simp [App.ShowDialog, hna, h2, WebRenderer.ShowDialog]

/-- Witness of C19: with no application, a dialog call returns 0 and leaves one line on
standard error. -/
theorem show_dialog_without_app_witness :
    ShowDialog 0 "Hello" "This is a sample dialog" ["OK"]
      { stdout := [], CurrentRenderer := none, currentApp := none, nativeInitCalls := 0 }
      = some (0, { stdout := [], CurrentRenderer := none, currentApp := none,
                   nativeInitCalls := 0,
                   stderr := ["Error: No active application for dialog"] }) :=
  (show_dialog_without_app 0 "Hello" "This is a sample dialog" ["OK"]
    { stdout := [], CurrentRenderer := none, currentApp := none, nativeInitCalls := 0 }
    FyneRenderer.Initialize
    { Title := "t", Width := 800, Height := 600, RenderMode := WebMode, Port := 9000 }
    { Title := "t", Width := 800, Height := 600, RenderMode := WebMode, Port := 9000 }).1 rfl

/-- C20, as the code has it: `FyneRenderer.Initialize` returns the nil error on every
renderer, where the specification's `initialize` returns an error when the toolkit cannot
start; so `tryNativeRenderer` over it returns true and prints nothing, and in native mode
`NewAppWithConfig` makes a native-active app with no web renderer: no fallback. -/
theorem fyne_initialize_never_fails (r : FyneRenderer) (w : World) (config : Config) :
    (FyneRenderer.Initialize r).2 = none ∧
    (specNativeInitialize false r).2 = some "backend unavailable" ∧
    (tryNativeRenderer FyneRenderer.Initialize w).1 = true ∧
    (tryNativeRenderer FyneRenderer.Initialize w).2.stdout = w.stdout ∧
    (tryNativeRenderer (specNativeInitialize false) w).1 = false ∧
    (NewAppWithConfig FyneRenderer.Initialize
      { config with RenderMode := NativeMode } w).1.nativeActive = true ∧
    (NewAppWithConfig FyneRenderer.Initialize
      { config with RenderMode := NativeMode } w).1.webRenderer = none := by
  refine ⟨rfl, rfl, rfl, rfl, rfl, ?_, ?_⟩ <;>
    simp [NewAppWithConfig, tryNativeRenderer, FyneRenderer.Initialize, NativeMode, WebMode]

/-! ## Labels -/

theorem label_tail_flags : ∀ b1 i1 b2 i2 : Bool,
    (", color: black" ++ Label.styleInfo
        { text := "", fontSize := 0, bold := b1, italic := i1, color := "" } ++ ")]").data <:+
      (", color: black" ++ Label.styleInfo
        { text := "", fontSize := 0, bold := b2, italic := i2, color := "" } ++ ")]").data →
    b1 = b2 ∧ i1 = i2 := by
  decide

theorem label_render_data (l : Label) (hc : l.color = "black") :
    l.Render.data
      = (("[Label: " : String).data
          ++ ((l.text.data ++ (" (size:" : String).data) ++ ' ' :: (formatInt l.fontSize).data))
        ++ (", color: black" ++ Label.styleInfo
            { text := "", fontSize := 0, bold := l.bold, italic := l.italic, color := "" }
            ++ ")]").data := by
  obtain ⟨t, n, b, i, c⟩ := l
  simp only at hc
  subst hc
  simp only [Label.Render, String.data_append, List.append_assoc]
  cases b <;> cases i <;> rfl

/-- C15: for two labels whose color is the default "black" (as it is after `NewLabel`
followed by `SetText`, `SetFontSize`, `SetBold`, `SetItalic`), equal `Render` outputs force
equal text, font size, bold flag and italic flag; the output is
"[Label: <text> (size: <fontSize in decimal>, color: black< bold>< italic>)]", a function of
the field values. -/
theorem label_render_parseable (l1 l2 : Label) (h1 : l1.color = "black")
    (h2 : l2.color = "black") :
    (l1.Render = l2.Render → l1.text = l2.text ∧ l1.fontSize = l2.fontSize ∧
      l1.bold = l2.bold ∧ l1.italic = l2.italic) ∧
    l1.Render = "[Label: " ++ l1.text ++ " (size: " ++ formatInt l1.fontSize ++ ", color: black"
      ++ (if l1.bold then " bold" else "") ++ (if l1.italic then " italic" else "") ++ ")]" ∧
    (∀ (t0 t : String) (n : Int) (b i : Bool),
      (((((NewLabel t0).SetText t).SetFontSize n).SetBold b).SetItalic i).color = "black" ∧
      (((((NewLabel t0).SetText t).SetFontSize n).SetBold b).SetItalic i)
        = { text := t, fontSize := n, bold := b, italic := i, color := "black" }) := by
  refine ⟨?_, ?_, fun _ _ _ _ _ => ⟨rfl, rfl⟩⟩
  · intro h
    have hd := congrArg String.data h
    rw [label_render_data l1 h1, label_render_data l2 h2] at hd
    have hflags : l1.bold = l2.bold ∧ l1.italic = l2.italic := by
      rcases List.append_eq_append_iff.mp hd with ⟨a, -, ht⟩ | ⟨a, -, ht⟩
      · obtain ⟨e1, e2⟩ := label_tail_flags _ _ _ _ ⟨a, ht.symm⟩
        exact ⟨e1.symm, e2.symm⟩
      · exact label_tail_flags _ _ _ _ ⟨a, ht.symm⟩
    obtain ⟨hb, hi⟩ := hflags
    rw [hb, hi] at hd
    have hbody := List.append_cancel_left (List.append_cancel_right hd)
    obtain ⟨hp, hn⟩ := split_at_last ' ' _ _ _ _ (formatInt_no_space l1.fontSize)
      (formatInt_no_space l2.fontSize) hbody
    exact ⟨String.ext (List.append_cancel_right hp),
      formatInt_injective _ _ (String.ext hn), hb, hi⟩
  · obtain ⟨t, n, b, i, c⟩ := l1
    simp only at h1
    subst h1
    cases b <;> cases i <;>
      simp [Label.Render, Label.styleInfo, String.append_assoc]

/-- Witness of C15: two labels built by the setters that differ in the bold flag only do
not render alike. -/
theorem label_render_parseable_witness :
    Label.Render ((((NewLabel "a").SetText "Hi").SetFontSize 24).SetBold true)
      ≠ Label.Render ((((NewLabel "a").SetText "Hi").SetFontSize 24).SetBold false) :=
  fun h => absurd ((label_render_parseable
    ((((NewLabel "a").SetText "Hi").SetFontSize 24).SetBold true)
    ((((NewLabel "a").SetText "Hi").SetFontSize 24).SetBold false) rfl rfl).1 h).2.2.1
    (by decide)


/-! ## Renderer backends -/

/-- C21 fails on the code: a mock renderer that was initialized and then shut down is
initialized again by a later call of `Initialize` on the same renderer. -/
theorem mock_initialize_after_shutdown :
    (MockRenderer.Initialize
      (MockRenderer.Shutdown
        (MockRenderer.Initialize { initialized := false }).1).1).1.initialized = true :=
  rfl

/-- C21 as amended: the state of a backend is not one-way.  `MockRenderer.Initialize` sets
`initialized` to true from every state, also after `Shutdown`, and `Shutdown` sets it to
false from every state; `FyneRenderer.Shutdown` changes nothing and
`FyneRenderer.Initialize` installs an application from every state, also after
`Shutdown`. -/
theorem backend_state_not_one_way (r : MockRenderer) (f : FyneRenderer) :
    (r.Initialize).1.initialized = true ∧
    (r.Shutdown).1.initialized = false ∧
    ((r.Shutdown).1.Initialize).1.initialized = true ∧
    (((r.Initialize).1.Shutdown).1.Initialize).1.initialized = true ∧
    f.Shutdown = f ∧
    (f.Initialize).1.app = true ∧
    (f.Shutdown.Initialize).1.app = true ∧
    ((f.Initialize).1.Shutdown.Initialize).1.app = true :=
  ⟨rfl, rfl, rfl, rfl, rfl, rfl, rfl, rfl⟩

/-- C22: every operation of the mock renderer succeeds.  `Initialize` returns no error in
every state; `CreateWindow(title, w, h)` returns no error and a mock target whose `Size()`
is `(w, h)`, for every title and all integers; `DrawRectangle`, `DrawText`, `Clear` and
`Present` return, leave the renderer and the target as they were, and so the size. -/
theorem mock_operations_succeed (r : MockRenderer) (title text font color : String)
    (w h x y size : Int) (target : Option RenderTarget) (t : MockTarget) :
    (r.Initialize).2.1 = none ∧
    (r.CreateWindow title w h).2.1.2 = none ∧
    (∃ mt, (r.CreateWindow title w h).2.1.1 = some (RenderTarget.mock mt) ∧
      mt.Size = (w, h)) ∧
    (r.CreateWindow title w h).1 = r ∧
    (r.DrawRectangle target x y w h color).1 = r ∧
    (r.DrawRectangle target x y w h color).2.1 = target ∧
    (r.DrawText target text x y font size color).1 = r ∧
    (r.DrawText target text x y font size color).2.1 = target ∧
    (t.Clear).1 = t ∧ (t.Present).1 = t ∧
    (t.Clear).1.Size = t.Size ∧ (t.Present).1.Size = t.Size :=
  ⟨rfl, rfl, ⟨{ width := w, height := h }, rfl, rfl⟩, rfl, rfl, rfl, rfl, rfl, rfl, rfl,
    rfl, rfl⟩

/-- C23: `DrawRectangle` and `DrawText` of the Fyne renderer, called with a target that is
not a `*FyneRenderTarget` (a mock target, or the nil interface), print
"Error: Invalid render target type" and return: the renderer and every window's content
stay as they were, and there is no panic. -/
theorem fyne_draw_foreign_target (r : FyneRenderer) (target : Option RenderTarget)
    (text font colorStr : String) (x y width height size : Int) (heap : List FyneWindow)
    (stdout : List String) (hforeign : ∀ t, target ≠ some (RenderTarget.fyne t)) :
    r.DrawRectangle target x y width height colorStr heap stdout
      = some (r, heap, stdout ++ ["Error: Invalid render target type"]) ∧
    r.DrawText target text x y font size colorStr heap stdout
      = some (r, heap, stdout ++ ["Error: Invalid render target type"]) := by
  match target, hforeign with
  | none, _ => exact ⟨rfl, rfl⟩
  | some (RenderTarget.mock _), _ => exact ⟨rfl, rfl⟩
  | some (RenderTarget.fyne t), hf => exact absurd rfl (hf t)

/-- Witness of C23: a mock target of size 800x600 given to the Fyne renderer that owns one
window. -/
theorem fyne_draw_foreign_target_witness :
    FyneRenderer.DrawRectangle { app := true, windows := ["main"] }
      (some (RenderTarget.mock { width := 800, height := 600 })) 0 0 10 10 "red"
      [{ title := "main", width := 800, height := 600, content := [] }] []
      = some ({ app := true, windows := ["main"] },
          [{ title := "main", width := 800, height := 600, content := [] }],
          ["Error: Invalid render target type"]) :=
  (fyne_draw_foreign_target { app := true, windows := ["main"] }
    (some (RenderTarget.mock { width := 800, height := 600 })) "hi" "sans" "red"
    0 0 10 10 12 [{ title := "main", width := 800, height := 600, content := [] }] []
    (fun _ h => by cases h)).1

/-! ## Negative sizes -/

theorem renderComponents_toNat (sep : String) (s1 s2 : Int) (h : s1.toNat = s2.toNat)
    (len : Nat) (cs : List Component) :
    ∀ (i : Nat) (b : String),
      renderComponents sep s1 len cs i b = renderComponents sep s2 len cs i b := by
  induction cs with
  | nil => intro i b; rfl
  | cons c rest ih =>
    intro i b
    simp only [renderComponents, h]
    cases c.Render with
    | none => rfl
    | some s => exact ih _ _

theorem renderComponents_panics (sep : String) (spacing : Int) (len : Nat)
    (cs : List Component) (h : ∃ c ∈ cs, c.Render = none) :
    ∀ (i : Nat) (b : String), renderComponents sep spacing len cs i b = none := by
  induction cs with
  | nil => obtain ⟨c, hc, -⟩ := h; cases hc
  | cons x rest ih =>
    intro i b
    simp only [renderComponents]
    cases hx : x.Render with
    | none => rfl
    | some s =>
      obtain ⟨c, hc, hn⟩ := h
      rcases List.mem_cons.mp hc with e | e
      · rw [e, hx] at hn; cases hn
      · exact ih ⟨c, e, hn⟩ _ _

/-- C24: `SetPadding` and `SetSpacing` store any integer, and a negative value renders as
zero: for every Stack or Flex layout (any direction, any children), `Render` after
`SetPadding(p)` with `p < 0` equals `Render` after `SetPadding(0)`, and `Render` after
`SetSpacing(s)` with `s < 0` equals `Render` after `SetSpacing(0)`. -/
theorem negative_padding_spacing_as_zero (sl : StackLayout) (fl : FlexLayout) (p s : Int)
    (hp : p < 0) (hs : s < 0) :
    ((sl.SetPadding p).padding = p ∧ (sl.SetSpacing s).spacing = s ∧
      (fl.SetPadding p).padding = p ∧ (fl.SetSpacing s).spacing = s) ∧
    (sl.SetPadding p).Render = (sl.SetPadding 0).Render ∧
    (sl.SetSpacing s).Render = (sl.SetSpacing 0).Render ∧
    (fl.SetPadding p).Render = (fl.SetPadding 0).Render ∧
    (fl.SetSpacing s).Render = (fl.SetSpacing 0).Render := by
  have hp0 : p.toNat = 0 := Int.toNat_of_nonpos (Int.le_of_lt hp)
  have hs0 : s.toNat = (0 : Int).toNat := Int.toNat_of_nonpos (Int.le_of_lt hs)
  refine ⟨⟨rfl, rfl, rfl, rfl⟩, ?_, ?_, ?_, ?_⟩
  · simp [StackLayout.Render, StackLayout.SetPadding, BaseLayout.SetPadding, hp0]
  · simp only [StackLayout.Render, StackLayout.SetSpacing, BaseLayout.SetSpacing]
    rw [renderComponents_toNat "\n" s 0 hs0]
  · simp [FlexLayout.Render, FlexLayout.SetPadding, BaseLayout.SetPadding, hp0,
      FlexLayout.separator]
  · simp only [FlexLayout.Render, FlexLayout.SetSpacing, BaseLayout.SetSpacing,
      FlexLayout.separator]
    rw [renderComponents_toNat _ s 0 hs0]

/-- Witness of C24: padding -3 and spacing -2 on a stack of two children render as padding
0 and spacing 0, that is "AB". -/
theorem negative_padding_spacing_as_zero_witness :
    StackLayout.Render (StackLayout.SetPadding
      { components := [{ Render := some "A" }, { Render := some "B" }],
        padding := 1, spacing := 1 } (-3))
      = StackLayout.Render (StackLayout.SetPadding
      { components := [{ Render := some "A" }, { Render := some "B" }],
        padding := 1, spacing := 1 } 0) ∧
    StackLayout.Render
      { components := [{ Render := some "A" }, { Render := some "B" }],
        padding := -3, spacing := -2 } = some "AB" :=
  ⟨(negative_padding_spacing_as_zero
      { components := [{ Render := some "A" }, { Render := some "B" }],
        padding := 1, spacing := 1 }
      { components := [], padding := 0, spacing := 0, direction := Horizontal }
      (-3) (-2) (by decide) (by decide)).2.1,
    by decide⟩

/-- C25: `NewSpacer` and `SetSize` store any integer; `Spacer.Render` returns a string if and
only if the stored size is `≥ 0`, and panics for every negative size; a Stack or Flex layout
that has such a spacer among its children panics in `Render` as well. -/
theorem spacer_negative_panics (n : Int) (s : Spacer) (b : BaseLayout) (d : Direction) :
    (NewSpacer n).size = n ∧ (s.SetSize n).size = n ∧
    (s.Render.isSome = true ↔ 0 ≤ s.size) ∧
    (s.size < 0 → s.Render = none) ∧
    (s.size < 0 → s.toComponent ∈ b.components →
      StackLayout.Render { toBaseLayout := b } = none ∧
      FlexLayout.Render { toBaseLayout := b, direction := d } = none) := by
  have hneg : s.size < 0 → s.Render = none := by
    intro h
    simp [Spacer.Render, stringsRepeat, h]
  refine ⟨rfl, rfl, ?_, hneg, ?_⟩
  · by_cases h : s.size < 0
    · simp [hneg h, Int.not_le.mpr h]
    · simp [Spacer.Render, stringsRepeat, h, Int.not_lt.mp h]
  · intro h hmem
    have hex : ∃ c ∈ b.components, c.Render = none := ⟨s.toComponent, hmem, hneg h⟩
    constructor
    · simp only [StackLayout.Render]
      rw [renderComponents_panics _ _ _ _ hex]
    · simp only [FlexLayout.Render]
      rw [renderComponents_panics _ _ _ _ hex]

/-- Witness of C25: a spacer of size -1 panics, and so does a stack layout holding it
between two rendering children. -/
theorem spacer_negative_panics_witness :
    (NewSpacer (-1)).Render = none ∧
    StackLayout.Render
      { components := [{ Render := some "A" }, (NewSpacer (-1)).toComponent,
                       { Render := some "B" }],
        padding := 0, spacing := 0 } = none :=
  ⟨(spacer_negative_panics (-1) (NewSpacer (-1))
      { components := [{ Render := some "A" }, (NewSpacer (-1)).toComponent,
                       { Render := some "B" }],
        padding := 0, spacing := 0 } Vertical).2.2.2.1 (by decide),
   ((spacer_negative_panics (-1) (NewSpacer (-1))
      { components := [{ Render := some "A" }, (NewSpacer (-1)).toComponent,
                       { Render := some "B" }],
        padding := 0, spacing := 0 } Vertical).2.2.2.2 (by decide)
      (List.mem_cons_of_mem _ (List.mem_cons_self _ _))).1⟩

/-! ## Running a native-active application -/

/-- C26: when `nativeActive` is true, `Run` on an app with at least one window hands the
windows to a new web renderer bound to port 8080 and serves on ":8080", whatever
`config.Port` is; no native window is made.  `config.Port` is the served port when the web
backend was selected by `NewAppWithConfig`. -/
theorem native_run_serves_8080 (a : App) (w w0 : World)
    (nativeInit : FyneRenderer → FyneRenderer × Option String) (config : Config)
    (wins : List Window) :
    (a.nativeActive = true → a.windows ≠ [] →
      (a.Run w).1
        = RunOutcome.serving { NewWebRenderer 8080 with windows := a.windows } ":8080" ∧
      (a.Run w).2.stdout = w.stdout ++ ["Starting Gonic in native mode...",
        "Native renderer not implemented, falling back to web renderer"]) ∧
    ((NewAppWithConfig nativeInit config w0).1.nativeActive = false → wins ≠ [] →
      ((wins.foldl App.AddWindow (NewAppWithConfig nativeInit config w0).1).Run w).1
        = RunOutcome.serving { NewWebRenderer config.Port with windows := wins }
            (":" ++ formatInt config.Port)) := by
  constructor
  · intro hn hw
    have hl : a.windows.length ≠ 0 := fun h0 => hw (List.length_eq_zero.mp h0)
    have e : (":" ++ formatInt 8080 : String) = ":8080" := by decide
    simp [App.Run, hl, hn, runNativeApp, WebRenderer.Run, NewWebRenderer, e]
  · intro hn hw
    obtain ⟨-, h2, h3, -⟩ := newApp_backend nativeInit config w0
    obtain ⟨f1, f2, -, f4⟩ :=
      addWindows_fields (NewAppWithConfig nativeInit config w0).1 wins
    rw [hn] at h2 f1
    simp only [Bool.false_eq_true, if_false] at h2
    rw [h2] at f2
    rw [h3, List.nil_append] at f4
    have hl : wins.length ≠ 0 := fun h0 => hw (List.length_eq_zero.mp h0)
    simp [App.Run, f1, f2, f4, hl, WebRenderer.Run, NewWebRenderer]

/-- Witness of C26: a native-active app configured with port 9000 serves its window on
":8080". -/
theorem native_run_serves_8080_witness :
    (App.Run (App.AddWindow (NewAppWithConfig FyneRenderer.Initialize
        { Title := "t", Width := 800, Height := 600, RenderMode := NativeMode, Port := 9000 }
        { stdout := [], CurrentRenderer := none, currentApp := none,
          nativeInitCalls := 0 }).1
        { title := "main", width := 800, height := 600, content := none })
      { stdout := [], CurrentRenderer := none, currentApp := none, nativeInitCalls := 0 }).1
      = RunOutcome.serving
          { NewWebRenderer 8080 with
            windows := [{ title := "main", width := 800, height := 600, content := none }] }
          ":8080" :=
  ((native_run_serves_8080 (App.AddWindow (NewAppWithConfig FyneRenderer.Initialize
        { Title := "t", Width := 800, Height := 600, RenderMode := NativeMode, Port := 9000 }
        { stdout := [], CurrentRenderer := none, currentApp := none,
          nativeInitCalls := 0 }).1
        { title := "main", width := 800, height := 600, content := none })
      { stdout := [], CurrentRenderer := none, currentApp := none, nativeInitCalls := 0 }
      { stdout := [], CurrentRenderer := none, currentApp := none, nativeInitCalls := 0 }
      FyneRenderer.Initialize
      { Title := "t", Width := 800, Height := 600, RenderMode := NativeMode, Port := 9000 }
      []).1 rfl (by simp [App.AddWindow])).1

/-! ## Labels with a free color -/

/-- C27: with the color free, `Label.Render` does not determine the style flags: the label
with color "red bold" and bold false and the label with color "red" and bold true have the
same text and font size, different bold flags and colors, and the same `Render` output; so
`Render` is not injective on labels. -/
theorem label_render_color_clash :
    ((NewLabel "t").SetColor "red bold").text
      = (((NewLabel "t").SetColor "red").SetBold true).text ∧
    ((NewLabel "t").SetColor "red bold").fontSize
      = (((NewLabel "t").SetColor "red").SetBold true).fontSize ∧
    ((NewLabel "t").SetColor "red bold").bold = false ∧
    (((NewLabel "t").SetColor "red").SetBold true).bold = true ∧
    ((NewLabel "t").SetColor "red bold").color
      ≠ (((NewLabel "t").SetColor "red").SetBold true).color ∧
    ((NewLabel "t").SetColor "red bold").Render
      = (((NewLabel "t").SetColor "red").SetBold true).Render ∧
    ((NewLabel "t").SetColor "red bold").Render = "[Label: t (size: 14, color: red bold)]" ∧
    ¬ Function.Injective Label.Render := by
  refine ⟨rfl, rfl, rfl, rfl, by decide, by decide, by decide, ?_⟩
  intro hinj
  have h : ((NewLabel "t").SetColor "red bold")
      = (((NewLabel "t").SetColor "red").SetBold true) := hinj (by decide)
  have hb := congrArg Label.bold h
  exact absurd hb (by decide)

/-! ## Flattening a nested stack layout -/

theorem renderComponents_no_spacing (sep : String) (spacing : Int) (h : spacing.toNat = 0)
    (len : Nat) (cs : List Component) :
    ∀ (i : Nat) (b : String),
      renderComponents sep spacing len cs i b
        = (concatOutputs cs).map (fun t => b ++ t) := by
  induction cs with
  | nil => intro i b; simp [renderComponents, concatOutputs]
  | cons c rest ih =>
    intro i b
    simp only [renderComponents, concatOutputs, h, writeRepeat, ite_self]
    cases c.Render with
    | none => rfl
    | some s =>
      simp only [ih]
      cases concatOutputs rest with
      | none => rfl
      | some t => simp [String.append_assoc]

theorem stack_render_no_spacing (l : StackLayout) (h : l.spacing.toNat = 0) :
    l.Render = (concatOutputs l.components).map
      (fun t =>
        writeRepeat "\n" l.padding.toNat (writeRepeat "\n" l.padding.toNat "" ++ t)) := by
  simp only [StackLayout.Render, renderComponents_no_spacing "\n" l.spacing h]
  cases concatOutputs l.components <;> rfl

theorem concatOutputs_append (xs ys : List Component) :
    concatOutputs (xs ++ ys)
      = (match concatOutputs xs, concatOutputs ys with
        | some a, some b => some (a ++ b)
        | _, _ => none) := by
  induction xs with
  | nil => cases h : concatOutputs ys <;> simp [concatOutputs, h]
  | cons c rest ih =>
    have ih2 : concatOutputs (rest.append ys)
        = (match concatOutputs rest, concatOutputs ys with
          | some a, some b => some (a ++ b)
          | _, _ => none) := ih
    simp only [List.cons_append, concatOutputs]
    rw [ih2]
    cases c.Render <;> cases concatOutputs rest <;> cases concatOutputs ys <;>
      simp [String.append_assoc]

theorem concatOutputs_inner (inner : StackLayout) (hp : inner.padding = 0)
    (hs : inner.spacing = 0) (post : List Component) :
    concatOutputs (inner.toComponent :: post) = concatOutputs (inner.components ++ post) := by
  have hr : inner.Render = concatOutputs inner.components := by
    rw [stack_render_no_spacing inner (by rw [hs]; rfl), hp]
    cases concatOutputs inner.components <;> simp [writeRepeat]
  rw [concatOutputs_append]
  simp only [concatOutputs, StackLayout.toComponent, hr]

/-- C28: a StackLayout with padding 0 and spacing 0 renders to the plain concatenation of its
children's outputs; and for every StackLayout `outer` with spacing 0 (any padding), putting
the children of a child StackLayout `inner` with padding 0 and spacing 0 in the place of
`inner` leaves the `Render` of `outer` unchanged. -/
theorem stack_flatten_render (outer inner : StackLayout) (before after : List Component)
    (hp : inner.padding = 0) (hs : inner.spacing = 0) (ho : outer.spacing = 0)
    (hc : outer.components = before ++ inner.toComponent :: after) :
    inner.Render = concatOutputs inner.components ∧
    outer.Render = StackLayout.Render
      { outer with components := before ++ inner.components ++ after } := by
  constructor
  · rw [stack_render_no_spacing inner (by rw [hs]; rfl), hp]
    cases concatOutputs inner.components <;> simp [writeRepeat]
  · rw [stack_render_no_spacing outer (by rw [ho]; rfl),
      stack_render_no_spacing _ (by show outer.spacing.toNat = 0; rw [ho]; rfl)]
    have e : concatOutputs outer.components
        = concatOutputs (before ++ inner.components ++ after) := by
      rw [hc, concatOutputs_append, concatOutputs_inner inner hp hs after,
        List.append_assoc, concatOutputs_append before]
    simp only [e]

/-- Witness of C28: an outer stack with padding 1 around "A", an inner stack of "B" and "C",
and "D" renders as the outer stack around "A", "B", "C", "D". -/
theorem stack_flatten_render_witness :
    StackLayout.Render
      { components := [{ Render := some "A" },
          StackLayout.toComponent
            { components := [{ Render := some "B" }, { Render := some "C" }],
              padding := 0, spacing := 0 },
          { Render := some "D" }],
        padding := 1, spacing := 0 }
      = StackLayout.Render
      { components := [{ Render := some "A" }, { Render := some "B" },
          { Render := some "C" }, { Render := some "D" }],
        padding := 1, spacing := 0 } :=
  (stack_flatten_render
    { components := [{ Render := some "A" },
        StackLayout.toComponent
          { components := [{ Render := some "B" }, { Render := some "C" }],
            padding := 0, spacing := 0 },
        { Render := some "D" }],
      padding := 1, spacing := 0 }
    { components := [{ Render := some "B" }, { Render := some "C" }],
      padding := 0, spacing := 0 }
    [{ Render := some "A" }] [{ Render := some "D" }] rfl rfl rfl rfl).2

end Gonic
